import Mathlib

/-!
# Verification of the TrainerControl ANT message dispatch core

A shallow embedding of the ANT+ trainer-control library (message framing,
channel state machine, acknowledged-data queue, synchronous request path,
dongle reset and the HRM / FE-C device profiles), with theorems checking
the natural-language specification against the code.

Modelling conventions:
* bytes and machine integers are `Nat`, reduced `% 256` / `% 65536` /
  `% 4294967296` exactly where the C++ types truncate;
* `double` values are modelled as exact rationals (`ℚ`); the
  `static_cast<uintN_t>` of a nonnegative double is modelled as
  truncation toward zero followed by reduction modulo `2^N`, which is
  what the compiled code does on the supported targets;
* buffers (`std::vector<uint8_t>`, `Buffer`) are `List Nat`; reading a
  byte at an index uses `List.getD` (out-of-range reads yield 0);
* the USB reader is modelled as the list of frames it will produce in
  arrival order; `GetNextMessage` on an exhausted list is the reader's
  timeout exception;
* stateful methods become pure functions returning the new state
  together with the list of observable actions (USB writes, profile
  callbacks) they perform, in order.
-/

namespace TrainerControl

/-! ## Wire constants (enum `AntMessageId`, `AntChannelEvent` in AntStick.h) -/

def SYNC_BYTE : Nat := 0xA4
def UNASSIGN_CHANNEL : Nat := 0x41
def RESET_SYSTEM : Nat := 0x4A
def REQUEST_MESSAGE : Nat := 0x4D
def BROADCAST_DATA : Nat := 0x4E
def ACKNOWLEDGE_DATA : Nat := 0x4F
def BURST_TRANSFER_DATA : Nat := 0x50
def SET_CHANNEL_ID : Nat := 0x51
def RESPONSE_CHANNEL_ID : Nat := 0x51
def CHANNEL_RESPONSE : Nat := 0x40
def RESPONSE_SERIAL_NUMBER : Nat := 0x61
def STARTUP_MESSAGE : Nat := 0x6F

def RESPONSE_NO_ERROR : Nat := 0
def EVENT_RX_SEARCH_TIMEOUT : Nat := 1
def EVENT_RX_FAIL : Nat := 2
def EVENT_TRANSFER_TX_COMPLETED : Nat := 5
def EVENT_CHANNEL_CLOSED : Nat := 7
def EVENT_RX_FAIL_GO_TO_SEARCH : Nat := 8

/-! ## Message framing (AntStick.cpp anonymous namespace + AntMessageReader) -/

/-- XOR of the bytes of `b`, folded left with accumulator `c` starting at 0,
as in `AddMessageChecksum` / `IsGoodChecksum`. -/
def xorAccum (init : Nat) (b : List Nat) : Nat :=
  b.foldl Nat.xor init

/-- Model of `AddMessageChecksum`: append the XOR of all bytes so far. -/
def addMessageChecksum (b : List Nat) : List Nat :=
  b ++ [xorAccum 0 b]

/-- Model of `IsGoodChecksum`: the XOR over the whole message is zero. -/
def isGoodChecksum (message : List Nat) : Bool :=
  xorAccum 0 message == 0

/-- Model of `MakeMessage (id, data)` (the `Buffer` overload; the fixed-arity
overloads produce the same bytes for the corresponding payload lists):
`[SYNC, LEN, MSG_ID] ++ payload ++ [checksum]`.  The length and id bytes
pass through `uint8_t` casts. -/
def makeMessage (id : Nat) (data : List Nat) : List Nat :=
  addMessageChecksum (SYNC_BYTE :: (data.length % 256) :: (id % 256) :: data)

/-- Model of `MakeMessage (id, data0, data)`: like `makeMessage` with `data0`
(the channel number byte) prepended to the payload. -/
def makeMessageD0 (id data0 : Nat) (data : List Nat) : List Nat :=
  addMessageChecksum
    (SYNC_BYTE :: ((data.length + 1) % 256) :: (id % 256) :: (data0 % 256) :: data)

/-- Result of one dispatch of the streaming decoder
(`AntMessageReader::GetNextMessage1`). -/
inductive DecodeResult where
  | needMoreBytes : DecodeResult
  | frame (message : List Nat) (rest : List Nat) : DecodeResult
  | badChecksum : DecodeResult
deriving DecidableEq, Repr

/-- Model of `AntMessageReader::GetNextMessage1`, applied to the bytes available in
the buffer (up to the high-water mark): drop leading bytes until the head
is SYNC; if fewer than 4 bytes remain, request more; read `LEN = buf[1]`,
total size `LEN + 4`; if fewer than that many bytes remain, request more;
extract the frame and verify its checksum (a bad checksum throws). -/
def getNextMessage1 (buf : List Nat) : DecodeResult :=
  let b := buf.dropWhile (fun x => x != SYNC_BYTE)
  if b.length < 4 then .needMoreBytes
  else
    let len := b.getD 1 0 + 4
    if b.length < len then .needMoreBytes
    else
      let message := b.take len
      if isGoodChecksum message then .frame message (b.drop len)
      else .badChecksum

/-- Message id of a framed message: the byte at offset 2. -/
def frameMsgId (message : List Nat) : Nat := message.getD 2 0

/-- Payload of a framed message: `LEN = message[1]` bytes starting at
offset 3. -/
def framePayload (message : List Nat) : List Nat :=
  (message.drop 3).take (message.getD 1 0)

/-! ## Channel core (`AntChannel` in AntStick.h / AntStick.cpp) -/

/-- Model of `AntChannel::Id`: the pairing identity.  `DeviceNumber == 0` means
"search for any device of this type". -/
structure ChannelId where
  transmissionType : Nat
  deviceType : Nat
  deviceNumber : Nat
deriving DecidableEq, Repr

/-- Model of `AntChannel::Id(device_type, device_number)` constructor:
transmission type starts at 0. -/
def mkChannelId (device_type : Nat) (device_number : Nat) : ChannelId :=
  { transmissionType := 0, deviceType := device_type,
    deviceNumber := device_number }

/-- Model of `AntChannel::State`. -/
inductive ChannelState where
  | CH_SEARCHING : ChannelState
  | CH_OPEN : ChannelState
  | CH_CLOSED : ChannelState
deriving DecidableEq, Repr

/-- Model of `AntChannel::AckDataItem`: a queued acknowledged-data message. -/
structure AckDataItem where
  tag : Int
  data : List Nat
deriving DecidableEq, Repr

/-- The state of an `AntChannel` object (fields of the C++ class). -/
structure AntChannel where
  state : ChannelState
  channelId : ChannelId
  channelNumber : Nat
  ackDataQueue : List AckDataItem
  ackDataRequestOutstanding : Bool
  idReqestOutstanding : Bool
  messagesReceived : Nat
  messagesFailed : Nat
deriving DecidableEq, Repr

/-- Observable actions a channel method performs, in order: USB writes
and calls into the profile (the virtual methods of the derived class). -/
inductive ChannelAction where
  | write (message : List Nat) : ChannelAction
  | stateChanged (old_state new_state : ChannelState) : ChannelAction
  | ackReply (tag : Int) (event : Nat) : ChannelAction
  | received (data : List Nat) : ChannelAction
deriving DecidableEq, Repr

/-- Is this action a USB write of an ACKNOWLEDGE_DATA frame? -/
def ChannelAction.isAckDataWrite : ChannelAction → Bool
  | .write message => frameMsgId message == ACKNOWLEDGE_DATA
  | _ => false

/-- Errors thrown by the channel message handlers
(`std::runtime_error` in `OnChannelIdMessage`). -/
inductive ChannelError where
  | unexpectedChannelNumber : ChannelError
  | unexpectedDeviceType : ChannelError
  | unexpectedDeviceNumber : ChannelError
deriving DecidableEq, Repr

/-- The channel state at the end of the `AntChannel` constructor, after
`OPEN_CHANNEL` has been acknowledged: `m_State = CH_SEARCHING`, both
outstanding-request flags false, empty acknowledged-data queue, zero
counters.  (The configuration writes performed by the constructor are
not modelled here.) -/
def antChannelInit (channelNumber : Nat) (channel_id : ChannelId) : AntChannel :=
  { state := .CH_SEARCHING
    channelId := channel_id
    channelNumber := channelNumber
    ackDataQueue := []
    ackDataRequestOutstanding := false
    idReqestOutstanding := false
    messagesReceived := 0
    messagesFailed := 0 }

/-- Model of `AntChannel::SendAcknowledgedData`: push the item at the back of the
queue.  It performs no USB write (the empty action list). -/
def sendAcknowledgedData (ch : AntChannel) (tag : Int) (message : List Nat) :
    AntChannel × List ChannelAction :=
  ({ ch with ackDataQueue := ch.ackDataQueue ++ [⟨tag, message⟩] }, [])

/-- Model of `AntChannel::RequestDataPage` payload:
`{0x46, 0xFF, 0xFF, 0xFF, 0xFF, transmit_count, page_id, 0x01}`. -/
def requestDataPagePayload (page_id transmit_count : Nat) : List Nat :=
  [0x46, 0xFF, 0xFF, 0xFF, 0xFF, transmit_count, page_id, 0x01]

/-- Model of `AntChannel::RequestDataPage`: enqueue the request-data-page payload
as acknowledged data with `tag = page_id`. -/
def requestDataPage (ch : AntChannel) (page_id : Nat) (transmit_count : Nat) :
    AntChannel × List ChannelAction :=
  sendAcknowledgedData ch page_id (requestDataPagePayload page_id transmit_count)

/-- Model of `AntChannel::ChangeState`: switch to `new_state`, calling
`OnStateChanged(old, new)` only when the state actually changes. -/
def changeState (ch : AntChannel) (new_state : ChannelState) :
    AntChannel × List ChannelAction :=
  if ch.state ≠ new_state then
    ({ ch with state := new_state }, [.stateChanged ch.state new_state])
  else (ch, [])

/-- Model of `AntChannel::MaybeSendAckData`: if no acknowledged transmission is
outstanding and the queue is non-empty, write the front item as an
`ACKNOWLEDGE_DATA` frame (without popping it) and set the flag. -/
def maybeSendAckData (ch : AntChannel) : AntChannel × List ChannelAction :=
  if !ch.ackDataRequestOutstanding ∧ ch.ackDataQueue ≠ [] then
    match ch.ackDataQueue with
    | [] => (ch, [])
    | item :: _ =>
        ({ ch with ackDataRequestOutstanding := true },
         [.write (makeMessageD0 ACKNOWLEDGE_DATA ch.channelNumber item.data)])
  else (ch, [])

/-- Model of `AntChannel::OnChannelResponseMessage`: interpret the inner
`(msg_id, event)` of a CHANNEL_RESPONSE frame.  (The synchronous read of
the UNASSIGN_CHANNEL response in the EVENT_CHANNEL_CLOSED branch is
elided; only the write is recorded.) -/
def onChannelResponseMessage (ch : AntChannel) (data : List Nat) :
    AntChannel × List ChannelAction :=
  let msg_id := data.getD 4 0
  let event := data.getD 5 0
  if msg_id = 1 then
    let ch := if event = EVENT_RX_FAIL then
        { ch with messagesFailed := ch.messagesFailed + 1 }
      else ch
    if event = EVENT_RX_SEARCH_TIMEOUT then
      -- ignore it; we need to wait for the closed message
      (ch, [])
    else if event = EVENT_CHANNEL_CLOSED then
      if ch.state ≠ .CH_CLOSED then
        let r := changeState ch .CH_CLOSED
        (r.1, r.2 ++ [.write (makeMessage UNASSIGN_CHANNEL [ch.channelNumber % 256])])
      else (ch, [])
    else if event = EVENT_RX_FAIL_GO_TO_SEARCH then
      -- lost our device
      let ch := { ch with channelId := { ch.channelId with deviceNumber := 0 } }
      changeState ch .CH_SEARCHING
    else if event = RESPONSE_NO_ERROR then
      (ch, [])
    else if ch.ackDataRequestOutstanding then
      -- status for an ACKNOWLEDGE_DATA transmission: pop, clear the
      -- flag, call OnAcknowledgedDataReply (tag, event)
      match ch.ackDataQueue with
      | [] => (ch, [])
      | item :: rest =>
          ({ ch with ackDataQueue := rest, ackDataRequestOutstanding := false },
           [.ackReply item.tag event])
    else (ch, [])
  else (ch, [])

/-- Tail of `AntChannel::OnChannelIdMessage` after the device number has
been adopted or checked: on a non-zero learned device number change the
state to CH_OPEN; finally clear `m_IdReqestOutstanding`. -/
def onChannelIdFinish (ch : AntChannel) :
    Except ChannelError (AntChannel × List ChannelAction) :=
  if ch.channelId.deviceNumber ≠ 0 then
    let r := changeState ch .CH_OPEN
    .ok ({ r.1 with idReqestOutstanding := false }, r.2)
  else
    .ok ({ ch with idReqestOutstanding := false }, [])

/-- Device-number adoption step of `AntChannel::OnChannelIdMessage`:
adopt the decoded number when ours is 0, fail on a mismatch. -/
def onChannelIdStep (ch : AntChannel) (device_number : Nat) :
    Except ChannelError (AntChannel × List ChannelAction) :=
  if ch.channelId.deviceNumber = 0 then
    onChannelIdFinish
      { ch with channelId := { ch.channelId with deviceNumber := device_number } }
  else if ch.channelId.deviceNumber ≠ device_number then
    .error .unexpectedDeviceNumber
  else
    onChannelIdFinish ch

/-- Model of `AntChannel::OnChannelIdMessage`: decode the channel identity from a
RESPONSE_CHANNEL_ID frame.  The C++ stores the decoded device number in
a `uint16_t`, so the 20-bit extension from the high nibble of the
transmission-type byte is truncated away. -/
def onChannelIdMessage (ch : AntChannel) (data : List Nat) :
    Except ChannelError (AntChannel × List ChannelAction) :=
  if data.getD 3 0 ≠ ch.channelNumber then .error .unexpectedChannelNumber
  else
    let device_number :=
      (data.getD 4 0 ||| (data.getD 5 0 <<< 8) |||
        (((data.getD 7 0 >>> 4) &&& 0x0F) <<< 16)) % 65536
    let device_type := data.getD 6 0
    if ch.channelId.deviceType = 0 then
      onChannelIdStep
        { ch with channelId := { ch.channelId with deviceType := device_type } }
        device_number
    else if ch.channelId.deviceType ≠ device_type then
      .error .unexpectedDeviceType
    else
      onChannelIdStep ch device_number

/-- Model of `AntChannel::HandleMessage`: entry point called by `AntStick::Tick`.
Messages received while CLOSED are ignored; CHANNEL_RESPONSE,
BROADCAST_DATA and RESPONSE_CHANNEL_ID are interpreted; everything else
goes to the profile's `OnMessageReceived`. -/
def handleMessage (ch : AntChannel) (data : List Nat) :
    Except ChannelError (AntChannel × List ChannelAction) :=
  if ch.state = .CH_CLOSED then .ok (ch, [])
  else if data.getD 2 0 = CHANNEL_RESPONSE then
    .ok (onChannelResponseMessage ch data)
  else if data.getD 2 0 = BROADCAST_DATA then
    let r1 :=
      if ch.channelId.deviceNumber = 0 ∧ !ch.idReqestOutstanding then
        ({ ch with idReqestOutstanding := true },
         [ChannelAction.write
            (makeMessage REQUEST_MESSAGE [ch.channelNumber % 256, SET_CHANNEL_ID])])
      else (ch, ([] : List ChannelAction))
    let r2 := maybeSendAckData r1.1
    .ok ({ r2.1 with messagesReceived := r2.1.messagesReceived + 1 },
         r1.2 ++ r2.2 ++ [.received data])
  else if data.getD 2 0 = RESPONSE_CHANNEL_ID then
    onChannelIdMessage ch data
  else
    .ok (ch, [.received data])

/-! ## Dongle controller (`AntStick` in AntStick.h / AntStick.cpp) -/

/-- The `SetAsideMessage` lambda inside `AntStick::ReadInternalMessage`:
those frames are queued into the delayed FIFO instead of being returned
as a synchronous response. -/
def setAsideMessage (m : List Nat) : Bool :=
  m.getD 2 0 == BROADCAST_DATA || m.getD 2 0 == BURST_TRANSFER_DATA ||
    (m.getD 2 0 == CHANNEL_RESPONSE &&
      (m.getD 4 0 == 0x01 || m.getD 4 0 == ACKNOWLEDGE_DATA ||
        m.getD 4 0 == BURST_TRANSFER_DATA))

/-- How a call to `AntStick::ReadInternalMessage` ends: with a response
frame, with the cleared (empty) buffer after the 50-iteration loop falls
through, or with the timeout exception thrown by
`AntMessageReader::GetNextMessage` when no frame arrives at all. -/
inductive ReadResult where
  | response (frame : List Nat) : ReadResult
  | emptyFrame : ReadResult
  | timeout : ReadResult
deriving DecidableEq, Repr

/-- The loop of `AntStick::ReadInternalMessage`, with `fuel` iterations
left.  `stream` is the list of frames the reader will produce, in
arrival order; an exhausted stream is the reader's timeout.  Returns the
result, the updated delayed FIFO and the unconsumed stream. -/
def readInternalMessageAux :
    Nat → List (List Nat) → List (List Nat) →
    ReadResult × List (List Nat) × List (List Nat)
  | 0, stream, delayed => (.emptyFrame, delayed, stream)
  | _ + 1, [], delayed => (.timeout, delayed, [])
  | n + 1, f :: stream, delayed =>
      if setAsideMessage f then readInternalMessageAux n stream (delayed ++ [f])
      else (.response f, delayed, stream)

/-- Model of `AntStick::ReadInternalMessage`: up to 50 reads. -/
def readInternalMessage (stream delayed : List (List Nat)) :
    ReadResult × List (List Nat) × List (List Nat) :=
  readInternalMessageAux 50 stream delayed

/-- The retry loop of `AntStick::Reset` (`ntries = 50`).  Returns the
delayed FIFO, the unconsumed stream, and whether STARTUP_MESSAGE was
seen.  A reader timeout is swallowed by the surrounding `try`/`catch`
and ends the loop; the delayed FIFO is cleared only on the
STARTUP_MESSAGE path. -/
def resetAux :
    Nat → List (List Nat) → List (List Nat) →
    List (List Nat) × List (List Nat) × Bool
  | 0, _stream, delayed => (delayed, _stream, false)
  | n + 1, stream, delayed =>
      match readInternalMessage stream delayed with
      | (.timeout, delayed2, rest) => (delayed2, rest, false)
      | (.emptyFrame, delayed2, rest) => resetAux n rest delayed2
      | (.response f, delayed2, rest) =>
          if f.length ≥ 2 ∧ f.getD 2 0 = STARTUP_MESSAGE then ([], rest, true)
          else resetAux n rest delayed2

/-- Model of `AntStick::Reset`: the RESET_SYSTEM frame written, then the retry
loop.  The function always returns normally (the C++ catches and
discards reader exceptions). -/
def antStickReset (stream delayed : List (List Nat)) :
    List Nat × (List (List Nat) × List (List Nat) × Bool) :=
  (makeMessage RESET_SYSTEM [0], resetAux 50 stream delayed)

/-! ## HRM profile (HeartRateMonitor.h / HeartRateMonitor.cpp) -/

/-- Model of `STALE_TIMEOUT` (both profiles): values older than 5000 ms read 0. -/
def STALE_TIMEOUT : Nat := 5000

/-- Unsigned 32-bit subtraction `(a - b) mod 2^32`, as computed by
`CurrentMilliseconds() - timestamp` on `uint32_t`. -/
def u32sub (a b : Nat) : Nat :=
  (a % 4294967296 + 4294967296 - b % 4294967296) % 4294967296

/-- The state of a `HeartRateMonitor` object. -/
structure HrmState where
  lastMeasurementTime : Nat
  measurementTime : Nat
  heartBeats : Nat
  instantHeartRate : ℚ
  instantHeartRateTimestamp : Nat
deriving DecidableEq, Repr

/-- The `HeartRateMonitor` constructor body: everything zeroed. -/
def hrmInit : HrmState :=
  { lastMeasurementTime := 0, measurementTime := 0, heartBeats := 0,
    instantHeartRate := 0, instantHeartRateTimestamp := 0 }

/-- Model of `HeartRateMonitor::OnMessageReceived`: for BROADCAST_DATA frames,
record the measurement time from frame bytes 8 and 9 (little endian),
the heart-beat count from byte 10, the instant heart rate from byte 11,
and the current timestamp. -/
def hrmOnMessageReceived (s : HrmState) (data : List Nat) (now : Nat) :
    HrmState :=
  if data.getD 2 0 ≠ BROADCAST_DATA then s
  else
    { lastMeasurementTime := s.measurementTime
      measurementTime := data.getD 8 0 + (data.getD 9 0 <<< 8)
      heartBeats := data.getD 10 0
      instantHeartRate := (data.getD 11 0 : ℚ)
      instantHeartRateTimestamp := now % 4294967296 }

/-- Model of `HeartRateMonitor::InstantHeartRate`: 0 when stale. -/
def hrmInstantHeartRate (s : HrmState) (now : Nat) : ℚ :=
  if u32sub now s.instantHeartRateTimestamp > STALE_TIMEOUT then 0
  else s.instantHeartRate

/-! ## FE-C profile (FitnessEquipmentControl.h / .cpp)

`double` members are exact rationals; `static_cast<uintN_t>` of the
nonnegative doubles occurring here is truncation toward zero reduced
mod `2^N` (what the compiled code computes on the supported targets). -/

def DP_GENERAL : Nat := 0x10
def DP_TRAINER_SPECIFIC : Nat := 0x19
def DP_USER_CONFIG : Nat := 0x37
def DP_FE_CAPABILITIES : Nat := 0x36
def DP_TRACK_RESISTANCE : Nat := 0x33

/-- Truncation toward zero of a nonnegative rational to `uint16_t`. -/
def toU16 (q : ℚ) : Nat := (q.num.toNat / q.den) % 65536

/-- Truncation toward zero of a nonnegative rational to `uint8_t`. -/
def toU8 (q : ℚ) : Nat := (q.num.toNat / q.den) % 256

/-- Model of `FitnessEquipmentControl::CapabilitiesStatus`. -/
inductive CapabilitiesStatus where
  | CAPABILITIES_UNKNOWN : CapabilitiesStatus
  | CAPABILITIES_REQUESTED : CapabilitiesStatus
  | CAPABILITIES_RECEIVED : CapabilitiesStatus
deriving DecidableEq, Repr

/-- The state of a `FitnessEquipmentControl` object. -/
structure FecState where
  updateUserConfig : Bool
  userWeight : ℚ
  bikeWeight : ℚ
  bikeWheelDiameter : ℚ
  windResistanceCoefficient : ℚ
  windSpeed : ℚ
  draftingFactor : ℚ
  slope : ℚ
  rollingResistance : ℚ
  targetResistance : ℚ
  targetPower : ℚ
  capabilitiesStatus : CapabilitiesStatus
  maxResistance : ℚ
  basicResistanceControl : Bool
  targetPowerControl : Bool
  simulationControl : Bool
  equipmentType : Nat
  zeroOffsetCalibrationRequired : Bool
  spinDownCalibrationRequired : Bool
  userConfigurationRequired : Bool
  instantPowerTimestamp : Nat
  instantPower : ℚ
  instantSpeedTimestamp : Nat
  instantSpeed : ℚ
  instantSpeedIsVirtual : Bool
  instantCadenceTimestamp : Nat
  instantCadence : ℚ
  trainerState : Nat
  simulationState : Nat
deriving DecidableEq, Repr

/-- The `FitnessEquipmentControl` constructor body: the documented
defaults.  `m_EquipmentType` is left uninitialized by the source; it is
modelled as 0 (`ET_UNKNOWN`).  `now` is `CurrentMilliseconds()` at
construction time. -/
def fecInit (now : Nat) : FecState :=
  { updateUserConfig := true
    userWeight := 75
    bikeWeight := 10
    bikeWheelDiameter := 0.668
    windResistanceCoefficient := 0.51
    windSpeed := 0
    draftingFactor := 1
    slope := 0
    rollingResistance := 0.004
    targetResistance := 0
    targetPower := 0
    capabilitiesStatus := .CAPABILITIES_UNKNOWN
    maxResistance := 0
    basicResistanceControl := false
    targetPowerControl := false
    simulationControl := false
    equipmentType := 0
    zeroOffsetCalibrationRequired := false
    spinDownCalibrationRequired := false
    userConfigurationRequired := false
    instantPowerTimestamp := now % 4294967296
    instantPower := 0
    instantSpeedTimestamp := now % 4294967296
    instantSpeed := 0
    instantSpeedIsVirtual := false
    instantCadenceTimestamp := now % 4294967296
    instantCadence := 0
    trainerState := 0
    simulationState := 0 }

/-- Model of `FitnessEquipmentControl::InstantPower`: gated on the power
timestamp. -/
def fecInstantPower (s : FecState) (now : Nat) : ℚ :=
  if u32sub now s.instantPowerTimestamp > STALE_TIMEOUT then 0
  else s.instantPower

/-- Model of `FitnessEquipmentControl::InstantSpeed`: the staleness test reads
`m_InstantPowerTimestamp`, not the speed timestamp (source behavior). -/
def fecInstantSpeed (s : FecState) (now : Nat) : ℚ :=
  if u32sub now s.instantPowerTimestamp > STALE_TIMEOUT then 0
  else s.instantSpeed

/-- Model of `FitnessEquipmentControl::InstantCadence`: the staleness test reads
`m_InstantPowerTimestamp`, not the cadence timestamp (source
behavior). -/
def fecInstantCadence (s : FecState) (now : Nat) : ℚ :=
  if u32sub now s.instantPowerTimestamp > STALE_TIMEOUT then 0
  else s.instantCadence

/-- Model of `FitnessEquipmentControl::SetUserParams`. -/
def fecSetUserParams (s : FecState)
    (user_weight bike_weight wheel_diameter : ℚ) : FecState :=
  { s with
    userWeight := user_weight
    bikeWeight := bike_weight
    bikeWheelDiameter := wheel_diameter
    updateUserConfig := true }

/-- The payload built by
`FitnessEquipmentControl::SendUserConfigPage`.  Note byte 4 computes
`(ws1 & 0x3) | ((bw | 0x03) << 4)` exactly as the source does (`|`, not
`&`, on the bike-weight quanta), reduced mod 256 by the `uint8_t`
`push_back`. -/
def userConfigPayload (userWeight bikeWeight wheelDiameter : ℚ) :
    List Nat :=
  let uw := toU16 (userWeight / 0.01)
  let bw := toU16 (bikeWeight / 0.05)
  let ws := toU16 (wheelDiameter / 0.01)
  let ws1 := (((toU16 (wheelDiameter / 0.001) : Int) - (ws * 10 : Int)).emod 65536).toNat
  [DP_USER_CONFIG,
   uw &&& 0xFF,
   (uw >>> 8) &&& 0xFF,
   0xFF,
   ((ws1 &&& 0x3) ||| ((bw ||| 0x03) <<< 4)) % 256,
   (bw >>> 4) &&& 0xFF,
   ws &&& 0xFF,
   0x00]

/-- Modelled from the claim (C7): the intended ANT+ packing of
User-Config byte 4 — the low two bits carry the 0..9 mm wheel residual
and the high nibble carries the low four bits of the bike-weight
quanta: `(ws1 & 0x03) | ((bw & 0x0F) << 4)`. -/
def intendedUserConfigByte4 (ws1 bw : Nat) : Nat :=
  (ws1 &&& 0x03) ||| ((bw &&& 0x0F) <<< 4)

/-- The User-Config byte 4 as the source computes it. -/
def sourceUserConfigByte4 (ws1 bw : Nat) : Nat :=
  ((ws1 &&& 0x3) ||| ((bw ||| 0x03) <<< 4)) % 256

/-- The payload built by
`FitnessEquipmentControl::SendTrackResistanceDataPage`:
`raw_slope = uint16((m_Slope + 200.0) / 0.01)` (little endian in bytes
5, 6) and `raw_rr = uint8(m_RollingResistance * 5e5)` in byte 7. -/
def trackResistancePayload (slope rollingResistance : ℚ) : List Nat :=
  let raw_slope := toU16 ((slope + 200) / 0.01)
  let raw_rr := toU8 (rollingResistance * 500000)
  [DP_TRACK_RESISTANCE, 0xFF, 0xFF, 0xFF, 0xFF,
   raw_slope &&& 0xFF, (raw_slope >>> 8) &&& 0xFF, raw_rr]

/-- Model of `FitnessEquipmentControl::SendUserConfigPage`: enqueue the page with
`tag = DP_USER_CONFIG` (via `SendAcknowledgedData`) and clear
`m_UpdateUserConfig`.  Emitted enqueues are returned as
`(tag, payload)` pairs. -/
def fecSendUserConfigPage (s : FecState) : FecState × List (Int × List Nat) :=
  ({ s with updateUserConfig := false },
   [((DP_USER_CONFIG : Int),
     userConfigPayload s.userWeight s.bikeWeight s.bikeWheelDiameter)])

/-- Model of `FitnessEquipmentControl::SendTrackResistanceDataPage`: enqueue the
page with `tag = DP_TRACK_RESISTANCE`. -/
def fecSendTrackResistanceDataPage (s : FecState) :
    FecState × List (Int × List Nat) :=
  (s, [((DP_TRACK_RESISTANCE : Int),
        trackResistancePayload s.slope s.rollingResistance)])

/-- Model of `FitnessEquipmentControl::SetSlope`: store the slope and send the
track-resistance page. -/
def fecSetSlope (s : FecState) (slope : ℚ) : FecState × List (Int × List Nat) :=
  fecSendTrackResistanceDataPage { s with slope := slope }

/-- Model of `FitnessEquipmentControl::ProcessGeneralPage` (`page` is the frame
from offset 4 on, i.e. `data + 4` in the source). -/
def processGeneralPage (s : FecState) (page : List Nat) (now : Nat) :
    FecState :=
  let capabilities := page.getD 7 0 &&& 0x0f
  { s with
    trainerState := (page.getD 7 0 >>> 4) &&& 0x07
    instantSpeedTimestamp := now % 4294967296
    instantSpeed := (((page.getD 5 0 <<< 8) + page.getD 4 0 : Nat) : ℚ) * 0.001
    instantSpeedIsVirtual := (capabilities &&& 0x3) != 0
    equipmentType := page.getD 1 0 &&& 0x1F }

/-- Model of `FitnessEquipmentControl::ProcessTrainerSpecificPage`. -/
def processTrainerSpecificPage (s : FecState) (page : List Nat) (now : Nat) :
    FecState :=
  let trainer_status := (page.getD 6 0 >>> 4) &&& 0x0f
  let flags := page.getD 7 0 &&& 0x0f
  let userConfigRequired := (trainer_status &&& 0x04) != 0
  { s with
    trainerState := (page.getD 7 0 >>> 4) &&& 0x07
    instantPowerTimestamp := now % 4294967296
    instantPower := ((((page.getD 6 0 &&& 0x0F) <<< 8) + page.getD 5 0 : Nat) : ℚ)
    simulationState := flags &&& 0x03
    instantCadence := (page.getD 2 0 : ℚ)
    zeroOffsetCalibrationRequired := (trainer_status &&& 0x01) != 0
    spinDownCalibrationRequired := (trainer_status &&& 0x02) != 0
    userConfigurationRequired := userConfigRequired
    updateUserConfig := s.updateUserConfig || userConfigRequired }

/-- Model of `FitnessEquipmentControl::ProcessCapabilitiesPage`. -/
def processCapabilitiesPage (s : FecState) (page : List Nat) : FecState :=
  let maxResistance := (page.getD 6 0 <<< 8) + page.getD 5 0
  let capabilities := page.getD 7 0
  let basicResistanceControl := (capabilities &&& 0x01) != 0
  let targetPowerControl := (capabilities &&& 0x02) != 0
  let simulationControl := (capabilities &&& 0x04) != 0
  let s := { s with maxResistance := (maxResistance : ℚ) }
  if s.capabilitiesStatus ≠ .CAPABILITIES_RECEIVED ∨
      basicResistanceControl ≠ s.basicResistanceControl ∨
      targetPowerControl ≠ s.targetPowerControl ∨
      simulationControl ≠ s.simulationControl then
    { s with
      capabilitiesStatus := .CAPABILITIES_RECEIVED
      basicResistanceControl := basicResistanceControl
      targetPowerControl := targetPowerControl
      simulationControl := simulationControl }
  else s

/-- The `switch (data[4])` of
`FitnessEquipmentControl::OnMessageReceived`: dispatch the broadcast
payload (`data + 4`) to the page processor selected by the page id. -/
def fecDispatchPage (s : FecState) (data : List Nat) (now : Nat) : FecState :=
  if data.getD 4 0 = DP_GENERAL then processGeneralPage s (data.drop 4) now
  else if data.getD 4 0 = DP_TRAINER_SPECIFIC then
    processTrainerSpecificPage s (data.drop 4) now
  else if data.getD 4 0 = DP_FE_CAPABILITIES then
    processCapabilitiesPage s (data.drop 4)
  else s

/-- The trailing if-chain of
`FitnessEquipmentControl::OnMessageReceived`: at most one control
request per broadcast — nothing while unpaired (`deviceNumber = 0`),
else a capabilities request while they are UNKNOWN, else the
User-Config page when `m_UpdateUserConfig` is set. -/
def fecControlRequest (deviceNumber : Nat) (s : FecState) :
    FecState × List (Int × List Nat) :=
  if deviceNumber = 0 then (s, [])
  else if s.capabilitiesStatus = .CAPABILITIES_UNKNOWN then
    ({ s with capabilitiesStatus := .CAPABILITIES_REQUESTED },
     [((DP_FE_CAPABILITIES : Int), requestDataPagePayload DP_FE_CAPABILITIES 4)])
  else if s.updateUserConfig then
    fecSendUserConfigPage s
  else (s, [])

/-- Model of `FitnessEquipmentControl::OnMessageReceived`: for BROADCAST_DATA
frames, process the data page and then issue at most one control
request.  `deviceNumber` is `ChannelId().DeviceNumber` of the
underlying channel. -/
def fecOnMessageReceived (deviceNumber : Nat) (s : FecState)
    (data : List Nat) (now : Nat) : FecState × List (Int × List Nat) :=
  if data.getD 2 0 ≠ BROADCAST_DATA then (s, [])
  else fecControlRequest deviceNumber (fecDispatchPage s data now)

/-- Model of `FitnessEquipmentControl::OnAcknowledgedDataReply`: on a
non-success event, rearm the request corresponding to the tag; for the
track-resistance page the source re-sends it immediately. -/
def fecOnAcknowledgedDataReply (s : FecState) (tag : Int) (event : Nat) :
    FecState × List (Int × List Nat) :=
  if event ≠ EVENT_TRANSFER_TX_COMPLETED then
    if tag = (DP_FE_CAPABILITIES : Int) then
      ({ s with capabilitiesStatus := .CAPABILITIES_UNKNOWN }, [])
    else if tag = (DP_USER_CONFIG : Int) then
      ({ s with updateUserConfig := true }, [])
    else if tag = (DP_TRACK_RESISTANCE : Int) then
      fecSendTrackResistanceDataPage s
    else (s, [])
  else (s, [])

end TrainerControl

namespace TrainerControl

/-! ## Theorems about the framing layer -/

theorem xorAccum_append (init : Nat) (l1 l2 : List Nat) :
    xorAccum init (l1 ++ l2) = xorAccum (xorAccum init l1) l2 := by
  simp [xorAccum, List.foldl_append]

theorem natXor_eq (a b : Nat) : Nat.xor a b = a ^^^ b := rfl

theorem xorAccum_init (init : Nat) (l : List Nat) :
    xorAccum init l = init ^^^ xorAccum 0 l := by
  induction l generalizing init with
  | nil => simp [xorAccum]
  | cons b rest ih =>
      simp only [xorAccum, List.foldl_cons] at *
      rw [ih (Nat.xor init b), ih (Nat.xor 0 b)]
      simp [natXor_eq, Nat.xor_assoc]

theorem xorAccum_checksummed (b : List Nat) :
    xorAccum 0 (addMessageChecksum b) = 0 := by
  simp [addMessageChecksum, xorAccum_append, xorAccum, natXor_eq]

/-- C1. Framing round-trip: for every message id and every payload of
length 0..255, `MakeMessage` yields a frame whose XOR over all bytes is
zero, and a single dispatch of the streaming decoder on that frame
consumes it whole and returns a message with exactly the same message id
and payload. -/
theorem framing_round_trip (id : Nat) (p : List Nat)
    (hid : id < 256) (hp : p.length ≤ 255) :
    xorAccum 0 (makeMessage id p) = 0 ∧
    getNextMessage1 (makeMessage id p) = .frame (makeMessage id p) [] ∧
    frameMsgId (makeMessage id p) = id ∧
    framePayload (makeMessage id p) = p := by
  have hlen : p.length % 256 = p.length := Nat.mod_eq_of_lt (by omega)
  have hidm : id % 256 = id := Nat.mod_eq_of_lt hid
  have hxor : xorAccum 0 (makeMessage id p) = 0 := xorAccum_checksummed _
  refine ⟨hxor, ?_, ?_, ?_⟩
  · have hdrop :
        (makeMessage id p).dropWhile (fun x => x != SYNC_BYTE)
          = makeMessage id p := by
      simp [makeMessage, addMessageChecksum, List.dropWhile, SYNC_BYTE]
    have hlength : (makeMessage id p).length = p.length + 4 := by
      simp [makeMessage, addMessageChecksum]
    have hget1 : (makeMessage id p).getD 1 0 = p.length := by
      simp [makeMessage, addMessageChecksum, hlen]
    unfold getNextMessage1
    rw [hdrop]
    rw [if_neg (by omega), hget1, if_neg (by omega)]
    rw [List.take_of_length_le (by omega), List.drop_eq_nil_of_le (by omega)]
    simp [isGoodChecksum, hxor]
  · simp [frameMsgId, makeMessage, addMessageChecksum, hidm]
  · simp [framePayload, makeMessage, addMessageChecksum, hlen,
      List.take_append_of_le_length (Nat.le_refl p.length)]

theorem frameMsgId_makeMessage (id : Nat) (p : List Nat) :
    frameMsgId (makeMessage id p) = id % 256 := by
  simp [frameMsgId, makeMessage, addMessageChecksum]

theorem frameMsgId_makeMessageD0 (id d0 : Nat) (p : List Nat) :
    frameMsgId (makeMessageD0 id d0 p) = id % 256 := by
  simp [frameMsgId, makeMessageD0, addMessageChecksum]

theorem onChannelResponseMessage_state (ch : AntChannel) (data : List Nat) :
    (onChannelResponseMessage ch data).1.state = ch.state ∨
    (onChannelResponseMessage ch data).1.state = .CH_CLOSED ∨
    (onChannelResponseMessage ch data).1.state = .CH_SEARCHING := by
  simp only [onChannelResponseMessage, changeState]
  repeat' split
  all_goals simp_all

theorem onChannelResponseMessage_no_ack_write (ch : AntChannel) (data : List Nat) :
    ∀ a ∈ (onChannelResponseMessage ch data).2, a.isAckDataWrite = false := by
  simp only [onChannelResponseMessage, changeState]
  repeat' split
  all_goals
    simp_all [ChannelAction.isAckDataWrite, frameMsgId_makeMessage,
      UNASSIGN_CHANNEL, ACKNOWLEDGE_DATA]

theorem onChannelResponseMessage_ack (ch : AntChannel) (data : List Nat)
    (item : AckDataItem) (rest : List AckDataItem)
    (h4 : data.getD 4 0 = 1)
    (he1 : ¬data.getD 5 0 = EVENT_RX_SEARCH_TIMEOUT)
    (he7 : ¬data.getD 5 0 = EVENT_CHANNEL_CLOSED)
    (he8 : ¬data.getD 5 0 = EVENT_RX_FAIL_GO_TO_SEARCH)
    (he0 : ¬data.getD 5 0 = RESPONSE_NO_ERROR)
    (hflag : ch.ackDataRequestOutstanding = true)
    (hq : ch.ackDataQueue = item :: rest) :
    (onChannelResponseMessage ch data).1.ackDataQueue = rest ∧
    (onChannelResponseMessage ch data).1.ackDataRequestOutstanding = false ∧
    (onChannelResponseMessage ch data).1.state = ch.state ∧
    (onChannelResponseMessage ch data).2
      = [.ackReply item.tag (data.getD 5 0)] := by
  by_cases he2 : data.getD 5 0 = EVENT_RX_FAIL
  · simp only [onChannelResponseMessage, if_pos h4, if_pos he2, if_neg he1,
      if_neg he7, if_neg he8, if_neg he0]
    simp [hflag, hq]
  · simp only [onChannelResponseMessage, if_pos h4, if_neg he2, if_neg he1,
      if_neg he7, if_neg he8, if_neg he0]
    simp [hflag, hq]

theorem onChannelResponseMessage_closed (ch : AntChannel) (data : List Nat)
    (h4 : data.getD 4 0 = 1) (h5 : data.getD 5 0 = EVENT_CHANNEL_CLOSED)
    (hcl : ¬ch.state = .CH_CLOSED) :
    (onChannelResponseMessage ch data).1.state = .CH_CLOSED := by
  have he2 : ¬data.getD 5 0 = EVENT_RX_FAIL := by rw [h5]; decide
  have he1 : ¬data.getD 5 0 = EVENT_RX_SEARCH_TIMEOUT := by rw [h5]; decide
  simp only [onChannelResponseMessage, if_pos h4, if_neg he2, if_neg he1,
    if_pos h5]
  simp [changeState, hcl]

theorem onChannelResponseMessage_gts (ch : AntChannel) (data : List Nat)
    (h4 : data.getD 4 0 = 1)
    (h5 : data.getD 5 0 = EVENT_RX_FAIL_GO_TO_SEARCH) :
    (onChannelResponseMessage ch data).1.state = .CH_SEARCHING ∧
    (onChannelResponseMessage ch data).1.channelId.deviceNumber = 0 := by
  have he2 : ¬data.getD 5 0 = EVENT_RX_FAIL := by rw [h5]; decide
  have he1 : ¬data.getD 5 0 = EVENT_RX_SEARCH_TIMEOUT := by rw [h5]; decide
  have he7 : ¬data.getD 5 0 = EVENT_CHANNEL_CLOSED := by rw [h5]; decide
  simp only [onChannelResponseMessage, if_pos h4, if_neg he2, if_neg he1,
    if_neg he7, if_pos h5]
  simp only [changeState]
  split <;> simp_all

theorem onChannelIdFinish_ok (ch ch' : AntChannel) (acts : List ChannelAction)
    (h : onChannelIdFinish ch = .ok (ch', acts)) :
    ch'.channelId = ch.channelId ∧
    ch'.state = (if ch.channelId.deviceNumber ≠ 0 then .CH_OPEN else ch.state) ∧
    ∀ a ∈ acts, a.isAckDataWrite = false := by
  simp only [onChannelIdFinish, changeState] at h
  repeat' split at h
  all_goals
    simp only [Except.ok.injEq, Prod.mk.injEq] at h
    obtain ⟨h1, h2⟩ := h
    subst h1
    subst h2
    simp_all [ChannelAction.isAckDataWrite]

theorem onChannelIdStep_ok (ch : AntChannel) (dn : Nat) (ch' : AntChannel)
    (acts : List ChannelAction)
    (h : onChannelIdStep ch dn = .ok (ch', acts)) :
    ch'.channelId.deviceNumber
      = (if ch.channelId.deviceNumber = 0 then dn else ch.channelId.deviceNumber) ∧
    ch'.state = (if ch'.channelId.deviceNumber ≠ 0 then .CH_OPEN else ch.state) ∧
    ∀ a ∈ acts, a.isAckDataWrite = false := by
  by_cases h0 : ch.channelId.deviceNumber = 0
  · rw [onChannelIdStep, if_pos h0] at h
    obtain ⟨hid, hst, hacts⟩ := onChannelIdFinish_ok _ _ _ h
    simp_all
  · rw [onChannelIdStep, if_neg h0] at h
    by_cases h1 : ch.channelId.deviceNumber ≠ dn
    · rw [if_pos h1] at h
      cases h
    · rw [if_neg h1] at h
      obtain ⟨hid, hst, hacts⟩ := onChannelIdFinish_ok _ _ _ h
      simp_all

theorem onChannelIdMessage_ok (ch : AntChannel) (data : List Nat)
    (ch' : AntChannel) (acts : List ChannelAction)
    (h : onChannelIdMessage ch data = .ok (ch', acts)) :
    ch'.state = (if ch'.channelId.deviceNumber ≠ 0 then .CH_OPEN else ch.state) ∧
    ∀ a ∈ acts, a.isAckDataWrite = false := by
  by_cases hch : data.getD 3 0 ≠ ch.channelNumber
  · rw [onChannelIdMessage, if_pos hch] at h
    cases h
  · rw [onChannelIdMessage, if_neg hch] at h
    by_cases ht : ch.channelId.deviceType = 0
    · rw [if_pos ht] at h
      obtain ⟨hdn, hst, hacts⟩ := onChannelIdStep_ok _ _ _ _ h
      simp_all
    · rw [if_neg ht] at h
      by_cases ht2 : ch.channelId.deviceType ≠ data.getD 6 0
      · rw [if_pos ht2] at h
        cases h
      · rw [if_neg ht2] at h
        obtain ⟨hdn, hst, hacts⟩ := onChannelIdStep_ok _ _ _ _ h
        simp_all

theorem maybeSendAckData_fields (ch : AntChannel) :
    (maybeSendAckData ch).1.state = ch.state ∧
    (maybeSendAckData ch).1.channelId = ch.channelId ∧
    (maybeSendAckData ch).1.ackDataQueue = ch.ackDataQueue := by
  unfold maybeSendAckData
  repeat' split
  all_goals simp_all

theorem maybeSendAckData_outstanding (ch : AntChannel)
    (hflag : ch.ackDataRequestOutstanding = true) :
    maybeSendAckData ch = (ch, []) := by
  simp [maybeSendAckData, hflag]

theorem handleMessage_broadcast_fields (ch ch' : AntChannel) (data : List Nat)
    (acts : List ChannelAction)
    (hcl : ¬ch.state = .CH_CLOSED) (hb : data.getD 2 0 = BROADCAST_DATA)
    (hh : handleMessage ch data = .ok (ch', acts)) :
    ch'.state = ch.state ∧ ch'.channelId = ch.channelId ∧
    ch'.ackDataQueue = ch.ackDataQueue := by
  rw [handleMessage, if_neg hcl,
    if_neg (show ¬data.getD 2 0 = CHANNEL_RESPONSE by rw [hb]; decide),
    if_pos hb] at hh
  simp only [Except.ok.injEq, Prod.mk.injEq] at hh
  obtain ⟨he, -⟩ := hh
  subst he
  split
  · obtain ⟨hs, hc, hq⟩ := maybeSendAckData_fields
      { ch with idReqestOutstanding := true }
    simp_all
  · obtain ⟨hs, hc, hq⟩ := maybeSendAckData_fields ch
    simp_all

theorem handleMessage_broadcast_sends (ch ch' : AntChannel) (data : List Nat)
    (acts : List ChannelAction) (item : AckDataItem) (rest : List AckDataItem)
    (hcl : ¬ch.state = .CH_CLOSED) (hb : data.getD 2 0 = BROADCAST_DATA)
    (hflag : ch.ackDataRequestOutstanding = false)
    (hq : ch.ackDataQueue = item :: rest)
    (hh : handleMessage ch data = .ok (ch', acts)) :
    ch'.ackDataRequestOutstanding = true ∧ ch'.ackDataQueue = item :: rest ∧
    ChannelAction.write (makeMessageD0 ACKNOWLEDGE_DATA ch.channelNumber item.data)
      ∈ acts := by
  rw [handleMessage, if_neg hcl,
    if_neg (show ¬data.getD 2 0 = CHANNEL_RESPONSE by rw [hb]; decide),
    if_pos hb] at hh
  simp only [Except.ok.injEq, Prod.mk.injEq] at hh
  obtain ⟨he, ha⟩ := hh
  subst he
  subst ha
  split
  · simp_all [maybeSendAckData]
  · simp_all [maybeSendAckData]

theorem handleMessage_no_ack_write_outstanding (ch ch' : AntChannel)
    (data : List Nat) (acts : List ChannelAction)
    (hflag : ch.ackDataRequestOutstanding = true)
    (hh : handleMessage ch data = .ok (ch', acts)) :
    ∀ a ∈ acts, a.isAckDataWrite = false := by
  by_cases hcl : ch.state = .CH_CLOSED
  · rw [handleMessage, if_pos hcl] at hh
    simp only [Except.ok.injEq, Prod.mk.injEq] at hh
    obtain ⟨-, ha⟩ := hh
    subst ha
    simp
  · rw [handleMessage, if_neg hcl] at hh
    by_cases h2 : data.getD 2 0 = CHANNEL_RESPONSE
    · rw [if_pos h2] at hh
      simp only [Except.ok.injEq] at hh
      have hnw := onChannelResponseMessage_no_ack_write ch data
      rw [hh] at hnw
      simpa using hnw
    · rw [if_neg h2] at hh
      by_cases h3 : data.getD 2 0 = BROADCAST_DATA
      · rw [if_pos h3] at hh
        simp only [Except.ok.injEq, Prod.mk.injEq] at hh
        obtain ⟨-, ha⟩ := hh
        subst ha
        intro a ha
        by_cases hc : ch.channelId.deviceNumber = 0 ∧ !ch.idReqestOutstanding
        · rw [if_pos hc,
            maybeSendAckData_outstanding { ch with idReqestOutstanding := true }
              (by simpa using hflag)] at ha
          simp at ha
          rcases ha with ha | ha
          · subst ha
            simp [ChannelAction.isAckDataWrite, frameMsgId_makeMessage,
              REQUEST_MESSAGE, ACKNOWLEDGE_DATA]
          · subst ha
            simp [ChannelAction.isAckDataWrite]
        · rw [if_neg hc, maybeSendAckData_outstanding ch hflag] at ha
          simp at ha
          subst ha
          simp [ChannelAction.isAckDataWrite]
      · rw [if_neg h3] at hh
        by_cases h4 : data.getD 2 0 = RESPONSE_CHANNEL_ID
        · rw [if_pos h4] at hh
          exact (onChannelIdMessage_ok _ _ _ _ hh).2
        · rw [if_neg h4] at hh
          simp only [Except.ok.injEq, Prod.mk.injEq] at hh
          obtain ⟨-, ha⟩ := hh
          subst ha
          simp [ChannelAction.isAckDataWrite]

theorem handleMessage_no_ack_write_of_not_broadcast (ch ch' : AntChannel)
    (data : List Nat) (acts : List ChannelAction)
    (hnb : ¬data.getD 2 0 = BROADCAST_DATA)
    (hh : handleMessage ch data = .ok (ch', acts)) :
    ∀ a ∈ acts, a.isAckDataWrite = false := by
  by_cases hcl : ch.state = .CH_CLOSED
  · rw [handleMessage, if_pos hcl] at hh
    simp only [Except.ok.injEq, Prod.mk.injEq] at hh
    obtain ⟨-, ha⟩ := hh
    subst ha
    simp
  · rw [handleMessage, if_neg hcl] at hh
    by_cases h2 : data.getD 2 0 = CHANNEL_RESPONSE
    · rw [if_pos h2] at hh
      simp only [Except.ok.injEq] at hh
      have hnw := onChannelResponseMessage_no_ack_write ch data
      rw [hh] at hnw
      simpa using hnw
    · rw [if_neg h2, if_neg hnb] at hh
      by_cases h4 : data.getD 2 0 = RESPONSE_CHANNEL_ID
      · rw [if_pos h4] at hh
        exact (onChannelIdMessage_ok _ _ _ _ hh).2
      · rw [if_neg h4] at hh
        simp only [Except.ok.injEq, Prod.mk.injEq] at hh
        obtain ⟨-, ha⟩ := hh
        subst ha
        simp [ChannelAction.isAckDataWrite]

theorem handleMessage_ack_reply (ch ch' : AntChannel) (data : List Nat)
    (acts : List ChannelAction) (item : AckDataItem) (rest : List AckDataItem)
    (hcl : ¬ch.state = .CH_CLOSED)
    (h2 : data.getD 2 0 = CHANNEL_RESPONSE) (h4 : data.getD 4 0 = 1)
    (he1 : ¬data.getD 5 0 = EVENT_RX_SEARCH_TIMEOUT)
    (he7 : ¬data.getD 5 0 = EVENT_CHANNEL_CLOSED)
    (he8 : ¬data.getD 5 0 = EVENT_RX_FAIL_GO_TO_SEARCH)
    (he0 : ¬data.getD 5 0 = RESPONSE_NO_ERROR)
    (hflag : ch.ackDataRequestOutstanding = true)
    (hq : ch.ackDataQueue = item :: rest)
    (hh : handleMessage ch data = .ok (ch', acts)) :
    ch'.ackDataQueue = rest ∧ ch'.ackDataRequestOutstanding = false ∧
    acts = [.ackReply item.tag (data.getD 5 0)] := by
  rw [handleMessage, if_neg hcl, if_pos h2] at hh
  simp only [Except.ok.injEq] at hh
  obtain ⟨hq', hflag', -, hacts'⟩ :=
    onChannelResponseMessage_ack ch data item rest h4 he1 he7 he8 he0 hflag hq
  rw [hh] at hq' hflag' hacts'
  exact ⟨hq', hflag', hacts'⟩

/-- C2. Channel state machine: the state is one of
{SEARCHING, OPEN, CLOSED}; it is SEARCHING immediately after construction
(OPEN_CHANNEL acknowledged); it moves from SEARCHING to OPEN exactly when
a channel-id response yields a non-zero device number; it moves from OPEN
to SEARCHING on EVENT_RX_FAIL_GO_TO_SEARCH with the learned device number
reset to 0; it moves to CLOSED on EVENT_CHANNEL_CLOSED; and no message
handled after reaching CLOSED changes the state (CLOSED is terminal). -/
theorem channel_state_machine (n : Nat) (cid : ChannelId)
    (ch ch' : AntChannel) (data : List Nat) (acts : List ChannelAction) :
    ((antChannelInit n cid).state = .CH_SEARCHING)
    ∧ (ch.state = .CH_SEARCHING ∨ ch.state = .CH_OPEN ∨ ch.state = .CH_CLOSED)
    ∧ (ch.state = .CH_CLOSED → handleMessage ch data = .ok (ch, []))
    ∧ (data.getD 2 0 = CHANNEL_RESPONSE → data.getD 4 0 = 1 →
        data.getD 5 0 = EVENT_CHANNEL_CLOSED →
        handleMessage ch data = .ok (ch', acts) → ch'.state = .CH_CLOSED)
    ∧ (ch.state = .CH_OPEN → data.getD 2 0 = CHANNEL_RESPONSE →
        data.getD 4 0 = 1 → data.getD 5 0 = EVENT_RX_FAIL_GO_TO_SEARCH →
        handleMessage ch data = .ok (ch', acts) →
        ch'.state = .CH_SEARCHING ∧ ch'.channelId.deviceNumber = 0)
    ∧ (ch.state = .CH_SEARCHING → handleMessage ch data = .ok (ch', acts) →
        (ch'.state = .CH_OPEN ↔
          data.getD 2 0 = RESPONSE_CHANNEL_ID ∧
          ch'.channelId.deviceNumber ≠ 0)) := by
  refine ⟨rfl, ?_, ?_, ?_, ?_, ?_⟩
  · cases h : ch.state <;> simp
  · intro hcl
    simp [handleMessage, hcl]
  · intro h2 h4 h5 hh
    by_cases hcl : ch.state = .CH_CLOSED
    · rw [handleMessage, if_pos hcl] at hh
      simp only [Except.ok.injEq, Prod.mk.injEq] at hh
      obtain ⟨he, -⟩ := hh
      rw [← he]
      exact hcl
    · rw [handleMessage, if_neg hcl, if_pos h2] at hh
      simp only [Except.ok.injEq] at hh
      have hc := onChannelResponseMessage_closed ch data h4 h5 hcl
      rw [hh] at hc
      exact hc
  · intro hop h2 h4 h5 hh
    have hcl : ¬ch.state = .CH_CLOSED := by rw [hop]; decide
    rw [handleMessage, if_neg hcl, if_pos h2] at hh
    simp only [Except.ok.injEq] at hh
    have hg := onChannelResponseMessage_gts ch data h4 h5
    rw [hh] at hg
    exact hg
  · intro hse hh
    have hcl : ¬ch.state = .CH_CLOSED := by rw [hse]; decide
    by_cases h2 : data.getD 2 0 = CHANNEL_RESPONSE
    · rw [handleMessage, if_neg hcl, if_pos h2] at hh
      simp only [Except.ok.injEq] at hh
      have hst := onChannelResponseMessage_state ch data
      rw [hh, hse] at hst
      constructor
      · intro hopen
        rcases hst with h | h | h <;> rw [hopen] at h <;> simp at h
      · rintro ⟨hid, -⟩
        rw [hid] at h2
        simp [RESPONSE_CHANNEL_ID, CHANNEL_RESPONSE] at h2
    · by_cases h3 : data.getD 2 0 = BROADCAST_DATA
      · obtain ⟨hs, -, -⟩ := handleMessage_broadcast_fields ch ch' data acts hcl h3 hh
        rw [hs, hse]
        constructor
        · intro h
          simp at h
        · rintro ⟨hid, -⟩
          rw [hid] at h3
          simp [RESPONSE_CHANNEL_ID, BROADCAST_DATA] at h3
      · by_cases h4 : data.getD 2 0 = RESPONSE_CHANNEL_ID
        · rw [handleMessage, if_neg hcl, if_neg h2, if_neg h3, if_pos h4] at hh
          obtain ⟨hst, -⟩ := onChannelIdMessage_ok _ _ _ _ hh
          constructor
          · intro hopen
            refine ⟨h4, ?_⟩
            intro hz
            rw [hst, if_neg (by simp [hz]), hse] at hopen
            simp at hopen
          · rintro ⟨-, hnz⟩
            rw [hst, if_pos hnz]
        · rw [handleMessage, if_neg hcl, if_neg h2, if_neg h3, if_neg h4] at hh
          simp only [Except.ok.injEq, Prod.mk.injEq] at hh
          obtain ⟨he, -⟩ := hh
          rw [← he, hse]
          constructor
          · intro h
            simp at h
          · rintro ⟨hid, -⟩
            exact absurd hid h4

theorem channel_state_machine_witness :
    handleMessage
        { state := .CH_OPEN, channelId := mkChannelId 0x78 0x2211,
          channelNumber := 0, ackDataQueue := [],
          ackDataRequestOutstanding := false, idReqestOutstanding := false,
          messagesReceived := 5, messagesFailed := 0 }
        (makeMessage CHANNEL_RESPONSE [0, 1, EVENT_RX_FAIL_GO_TO_SEARCH])
      = .ok
        ({ state := .CH_SEARCHING, channelId := mkChannelId 0x78 0,
           channelNumber := 0, ackDataQueue := [],
           ackDataRequestOutstanding := false, idReqestOutstanding := false,
           messagesReceived := 5, messagesFailed := 0 },
         [.stateChanged .CH_OPEN .CH_SEARCHING]) ∧
    (antChannelInit 0 (mkChannelId 0x78 0)).state = .CH_SEARCHING := by
  have hrun : handleMessage
      { state := .CH_OPEN, channelId := mkChannelId 0x78 0x2211,
        channelNumber := 0, ackDataQueue := [],
        ackDataRequestOutstanding := false, idReqestOutstanding := false,
        messagesReceived := 5, messagesFailed := 0 }
      (makeMessage CHANNEL_RESPONSE [0, 1, EVENT_RX_FAIL_GO_TO_SEARCH])
      = .ok
        ({ state := .CH_SEARCHING, channelId := mkChannelId 0x78 0,
           channelNumber := 0, ackDataQueue := [],
           ackDataRequestOutstanding := false, idReqestOutstanding := false,
           messagesReceived := 5, messagesFailed := 0 },
         [.stateChanged .CH_OPEN .CH_SEARCHING]) := by rfl
  have h := channel_state_machine 0 (mkChannelId 0x78 0)
    { state := .CH_OPEN, channelId := mkChannelId 0x78 0x2211,
      channelNumber := 0, ackDataQueue := [],
      ackDataRequestOutstanding := false, idReqestOutstanding := false,
      messagesReceived := 5, messagesFailed := 0 }
    { state := .CH_SEARCHING, channelId := mkChannelId 0x78 0,
      channelNumber := 0, ackDataQueue := [],
      ackDataRequestOutstanding := false, idReqestOutstanding := false,
      messagesReceived := 5, messagesFailed := 0 }
    (makeMessage CHANNEL_RESPONSE [0, 1, EVENT_RX_FAIL_GO_TO_SEARCH])
    [.stateChanged .CH_OPEN .CH_SEARCHING]
  have hgo := h.2.2.2.2.1 (by decide) (by decide) (by decide) (by decide) hrun
  exact ⟨hrun, h.1⟩

theorem framing_round_trip_witness :
    (78 : Nat) < 256 ∧ ([1, 2, 3] : List Nat).length ≤ 255 ∧
    (xorAccum 0 (makeMessage 78 [1, 2, 3]) = 0 ∧
      getNextMessage1 (makeMessage 78 [1, 2, 3])
        = .frame (makeMessage 78 [1, 2, 3]) [] ∧
      frameMsgId (makeMessage 78 [1, 2, 3]) = 78 ∧
      framePayload (makeMessage 78 [1, 2, 3]) = [1, 2, 3]) :=
  ⟨by decide, by decide, framing_round_trip 78 [1, 2, 3] (by decide) (by decide)⟩

theorem dropWhile_cons_head {α : Type} (p : α → Bool) (l : List α)
    (f : α) (rest : List α) (h : l.dropWhile p = f :: rest) :
    p f = false := by
  induction l with
  | nil => simp at h
  | cons a t ih =>
      rw [List.dropWhile_cons] at h
      split at h
      · exact ih h
      · cases h
        simp_all

theorem readInternalMessageAux_spec (n : Nat) :
    ∀ stream delayed : List (List Nat),
    (∀ f rest, (stream.takeWhile setAsideMessage).length < n →
        stream.dropWhile setAsideMessage = f :: rest →
        readInternalMessageAux n stream delayed
          = (.response f, delayed ++ stream.takeWhile setAsideMessage, rest)) ∧
    ((stream.takeWhile setAsideMessage).length < n →
        stream.dropWhile setAsideMessage = [] →
        readInternalMessageAux n stream delayed
          = (.timeout, delayed ++ stream.takeWhile setAsideMessage, [])) ∧
    (n ≤ (stream.takeWhile setAsideMessage).length →
        readInternalMessageAux n stream delayed
          = (.emptyFrame, delayed ++ stream.take n, stream.drop n)) := by
  induction n with
  | zero =>
      intro stream delayed
      refine ⟨?_, ?_, ?_⟩
      · intro f rest hlt
        omega
      · intro hlt
        omega
      · intro _
        simp [readInternalMessageAux]
  | succ n ih =>
      intro stream delayed
      cases stream with
      | nil =>
          refine ⟨?_, ?_, ?_⟩
          · intro f rest _ hd
            simp at hd
          · intro _ _
            simp [readInternalMessageAux]
          · intro h
            simp at h
      | cons f s =>
          by_cases hf : setAsideMessage f
          · obtain ⟨iha, ihb, ihc⟩ := ih s (delayed ++ [f])
            refine ⟨?_, ?_, ?_⟩
            · intro g rest hlt hd
              rw [List.takeWhile_cons, if_pos hf] at hlt ⊢
              rw [List.dropWhile_cons, if_pos hf] at hd
              rw [readInternalMessageAux, if_pos hf,
                iha g rest (by simpa using hlt) hd]
              simp
            · intro hlt hd
              rw [List.takeWhile_cons, if_pos hf] at hlt ⊢
              rw [List.dropWhile_cons, if_pos hf] at hd
              rw [readInternalMessageAux, if_pos hf,
                ihb (by simpa using hlt) hd]
              simp
            · intro hle
              rw [List.takeWhile_cons, if_pos hf] at hle
              rw [readInternalMessageAux, if_pos hf,
                ihc (by simpa using hle)]
              simp
          · refine ⟨?_, ?_, ?_⟩
            · intro g rest _ hd
              rw [List.dropWhile_cons, if_neg hf] at hd
              cases hd
              rw [readInternalMessageAux, if_neg hf]
              simp [List.takeWhile_cons, hf]
            · intro _ hd
              rw [List.dropWhile_cons, if_neg hf] at hd
              cases hd
            · intro hle
              rw [List.takeWhile_cons, if_neg hf] at hle
              simp at hle

/-- C4 (amended). Synchronous-request set-aside rule: over up to 50
reads, `ReadInternalMessage` appends to the delayed FIFO, in arrival
order, exactly the consumed frames of set-aside shape (BROADCAST_DATA,
BURST_TRANSFER_DATA, or CHANNEL_RESPONSE with inner id 1 /
ACKNOWLEDGE_DATA / BURST_TRANSFER_DATA) and returns the first frame not
of those shapes; if the reader produces no frame it fails with the
reader's timeout; and if 50 consecutive set-aside frames arrive it
returns the empty frame (a failed response) — not a pass-through
frame. -/
theorem read_internal_message_set_aside
    (stream delayed : List (List Nat)) (f : List Nat)
    (rest : List (List Nat)) :
    ((stream.takeWhile setAsideMessage).length < 50 →
      stream.dropWhile setAsideMessage = f :: rest →
      readInternalMessage stream delayed
        = (.response f, delayed ++ stream.takeWhile setAsideMessage, rest)
      ∧ setAsideMessage f = false
      ∧ ∀ g ∈ stream.takeWhile setAsideMessage, setAsideMessage g = true)
    ∧ ((stream.takeWhile setAsideMessage).length < 50 →
        stream.dropWhile setAsideMessage = [] →
        readInternalMessage stream delayed
          = (.timeout, delayed ++ stream.takeWhile setAsideMessage, []))
    ∧ (50 ≤ (stream.takeWhile setAsideMessage).length →
        readInternalMessage stream delayed
          = (.emptyFrame, delayed ++ stream.take 50, stream.drop 50)) := by
  obtain ⟨ha, hb, hc⟩ := readInternalMessageAux_spec 50 stream delayed
  refine ⟨?_, hb, hc⟩
  intro hlt hd
  refine ⟨ha f rest hlt hd, dropWhile_cons_head _ _ _ _ hd, ?_⟩
  intro g hg
  exact List.mem_takeWhile_imp hg

/-- C4 counterexample (to the claim as stated): when 50 consecutive
set-aside frames arrive, `ReadInternalMessage` does not raise the
Timeout error — it returns the cleared (empty) message buffer. -/
theorem read_internal_message_not_timeout :
    (readInternalMessage
        (List.replicate 50 (makeMessage BROADCAST_DATA [0])) []).1
      = .emptyFrame ∧
    (readInternalMessage
        (List.replicate 50 (makeMessage BROADCAST_DATA [0])) []).1
      ≠ .timeout := by
  constructor
  · decide
  · decide

theorem read_internal_message_set_aside_witness :
    readInternalMessage
        [makeMessage BROADCAST_DATA [0],
         makeMessage RESPONSE_SERIAL_NUMBER [0x78, 0x56, 0x34, 0x12]] []
      = (.response (makeMessage RESPONSE_SERIAL_NUMBER [0x78, 0x56, 0x34, 0x12]),
         [makeMessage BROADCAST_DATA [0]],
         []) ∧
    setAsideMessage (makeMessage RESPONSE_SERIAL_NUMBER [0x78, 0x56, 0x34, 0x12])
      = false := by
  have h := (read_internal_message_set_aside
    [makeMessage BROADCAST_DATA [0],
     makeMessage RESPONSE_SERIAL_NUMBER [0x78, 0x56, 0x34, 0x12]] []
    (makeMessage RESPONSE_SERIAL_NUMBER [0x78, 0x56, 0x34, 0x12]) []).1
    (by decide) (by decide)
  exact ⟨h.1, h.2.1⟩

theorem readInternalMessageAux_consumed (n : Nat) :
    ∀ (stream delayed : List (List Nat)) (r : ReadResult)
      (d2 rest : List (List Nat)),
    readInternalMessageAux n stream delayed = (r, d2, rest) →
    ∃ k, rest = stream.drop k ∧
      d2 = delayed ++ (stream.take k).filter setAsideMessage := by
  induction n with
  | zero =>
      intro stream delayed r d2 rest h
      rw [readInternalMessageAux] at h
      simp only [Prod.mk.injEq] at h
      obtain ⟨-, h2, h3⟩ := h
      exact ⟨0, by simp [← h3], by simp [← h2]⟩
  | succ n ih =>
      intro stream delayed r d2 rest h
      cases stream with
      | nil =>
          rw [readInternalMessageAux] at h
          simp only [Prod.mk.injEq] at h
          obtain ⟨-, h2, h3⟩ := h
          exact ⟨0, by simp [← h3], by simp [← h2]⟩
      | cons f s =>
          by_cases hf : setAsideMessage f
          · rw [readInternalMessageAux, if_pos hf] at h
            obtain ⟨k, hk1, hk2⟩ := ih s (delayed ++ [f]) r d2 rest h
            refine ⟨k + 1, by simp [hk1], ?_⟩
            rw [hk2]
            simp [List.filter_cons, hf]
          · rw [readInternalMessageAux, if_neg hf] at h
            simp only [Prod.mk.injEq] at h
            obtain ⟨-, h2, h3⟩ := h
            refine ⟨1, by simp [← h3], ?_⟩
            rw [← h2]
            simp [List.filter_cons, hf]

theorem resetAux_spec (n : Nat) :
    ∀ (stream delayed d' rest : List (List Nat)) (started : Bool),
    resetAux n stream delayed = (d', rest, started) →
    (started = true → d' = []) ∧
    (started = false → ∃ k, rest = stream.drop k ∧
        d' = delayed ++ (stream.take k).filter setAsideMessage) := by
  induction n with
  | zero =>
      intro stream delayed d' rest started h
      rw [resetAux] at h
      simp only [Prod.mk.injEq] at h
      obtain ⟨h1, h2, h3⟩ := h
      constructor
      · intro hs
        rw [← h3] at hs
        cases hs
      · intro _
        exact ⟨0, by simp [← h2], by simp [← h1]⟩
  | succ n ih =>
      intro stream delayed d' rest started h
      rw [resetAux] at h
      split at h
      case h_1 delayed2 rest0 heq =>
          rw [readInternalMessage] at heq
          obtain ⟨k1, hk1, hk2⟩ :=
            readInternalMessageAux_consumed 50 stream delayed _ _ _ heq
          simp only [Prod.mk.injEq] at h
          obtain ⟨h1, h2, h3⟩ := h
          constructor
          · intro hs
            rw [← h3] at hs
            cases hs
          · intro _
            exact ⟨k1, by rw [← h2, hk1], by rw [← h1, hk2]⟩
      case h_2 delayed2 rest0 heq =>
          rw [readInternalMessage] at heq
          obtain ⟨k1, hk1, hk2⟩ :=
            readInternalMessageAux_consumed 50 stream delayed _ _ _ heq
          obtain ⟨ht, hf2⟩ := ih rest0 delayed2 d' rest started h
          refine ⟨ht, ?_⟩
          intro hst
          obtain ⟨k2, hr2, hd2⟩ := hf2 hst
          refine ⟨k1 + k2, ?_, ?_⟩
          · rw [hr2, hk1, List.drop_drop]
          · rw [hd2, hk2, hk1, List.append_assoc, ← List.filter_append,
              ← List.take_add]
      case h_3 f delayed2 rest0 heq =>
          rw [readInternalMessage] at heq
          obtain ⟨k1, hk1, hk2⟩ :=
            readInternalMessageAux_consumed 50 stream delayed _ _ _ heq
          split at h
          · simp only [Prod.mk.injEq] at h
            obtain ⟨h1, h2, h3⟩ := h
            constructor
            · intro _
              exact h1.symm
            · intro hs
              rw [← h3] at hs
              cases hs
          · obtain ⟨ht, hf2⟩ := ih rest0 delayed2 d' rest started h
            refine ⟨ht, ?_⟩
            intro hst
            obtain ⟨k2, hr2, hd2⟩ := hf2 hst
            refine ⟨k1 + k2, ?_, ?_⟩
            · rw [hr2, hk1, List.drop_drop]
            · rw [hd2, hk2, hk1, List.append_assoc, ← List.filter_append,
                ← List.take_add]

/-- C8 (amended). Dongle reset tolerance: Reset writes RESET_SYSTEM
and never raises when STARTUP_MESSAGE is missing (it is total and runs
at most 50 response reads, each of which may consume several set-aside
frames).  The delayed FIFO is dropped exactly when STARTUP_MESSAGE is
received; when it is not, the frames set aside during reset remain
appended to the FIFO. -/
theorem ant_stick_reset_behaviour (stream delayed d' rest : List (List Nat))
    (started : Bool)
    (h : resetAux 50 stream delayed = (d', rest, started)) :
    (antStickReset stream delayed).1 = makeMessage RESET_SYSTEM [0]
    ∧ (antStickReset stream delayed).2 = (d', rest, started)
    ∧ (started = true → d' = [])
    ∧ (started = false → ∃ k, rest = stream.drop k ∧
        d' = delayed ++ (stream.take k).filter setAsideMessage) := by
  obtain ⟨h1, h2⟩ := resetAux_spec 50 stream delayed d' rest started h
  exact ⟨rfl, by simp [antStickReset, h], h1, h2⟩

/-- C8 counterexample (to the claim as stated): with a single
broadcast frame and no STARTUP_MESSAGE, Reset completes with that frame
still in the delayed FIFO (the FIFO is not dropped); and a successful
reset may read more than 50 frames (52 here). -/
theorem ant_stick_reset_counterexample :
    (antStickReset [makeMessage BROADCAST_DATA [0]] []).2
      = ([makeMessage BROADCAST_DATA [0]], [], false) ∧
    [makeMessage BROADCAST_DATA [0]] ≠ ([] : List (List Nat)) ∧
    (antStickReset
        (List.replicate 51 (makeMessage BROADCAST_DATA [0])
          ++ [makeMessage STARTUP_MESSAGE [0x20]]) []).2
      = ([], [], true) ∧
    (List.replicate 51 (makeMessage BROADCAST_DATA [0])
        ++ [makeMessage STARTUP_MESSAGE [0x20]]).length = 52 := by
  refine ⟨by decide, by decide, by decide, by decide⟩

theorem ant_stick_reset_witness :
    (antStickReset [makeMessage STARTUP_MESSAGE [0x20]]
        [makeMessage BROADCAST_DATA [0]]).2 = ([], [], true) ∧
    ([] : List (List Nat)) = [] := by
  have h := ant_stick_reset_behaviour [makeMessage STARTUP_MESSAGE [0x20]]
    [makeMessage BROADCAST_DATA [0]] [] [] true (by decide)
  exact ⟨h.2.1, h.2.2.1 rfl⟩

/-- C3. Acknowledged-data cadence: at most one acknowledged
transmission is in flight per channel (while `ack_in_flight` is set,
handling any message performs no further ACKNOWLEDGE_DATA write);
`SendAcknowledgedData` only enqueues and never writes; a queued item is
written only while handling a BROADCAST_DATA message and only when
nothing is in flight (the front item is written, the flag set, the
queue not yet popped); and a matching CHANNEL_RESPONSE event while in
flight pops exactly the front item, clears the flag, and invokes the
profile hook with that item's tag and the event — with no write, so a
failed transmission is not re-sent by the channel core itself. -/
theorem ack_transmission_cadence (ch ch' : AntChannel) (tag : Int)
    (message data : List Nat) (acts : List ChannelAction)
    (item : AckDataItem) (rest : List AckDataItem) :
    (sendAcknowledgedData ch tag message
      = ({ ch with ackDataQueue := ch.ackDataQueue ++ [⟨tag, message⟩] }, []))
    ∧ (ch.ackDataRequestOutstanding = true →
        handleMessage ch data = .ok (ch', acts) →
        ∀ a ∈ acts, a.isAckDataWrite = false)
    ∧ (¬data.getD 2 0 = BROADCAST_DATA →
        handleMessage ch data = .ok (ch', acts) →
        ∀ a ∈ acts, a.isAckDataWrite = false)
    ∧ (¬ch.state = .CH_CLOSED → data.getD 2 0 = BROADCAST_DATA →
        ch.ackDataRequestOutstanding = false →
        ch.ackDataQueue = item :: rest →
        handleMessage ch data = .ok (ch', acts) →
        ch'.ackDataRequestOutstanding = true ∧
        ch'.ackDataQueue = item :: rest ∧
        ChannelAction.write
            (makeMessageD0 ACKNOWLEDGE_DATA ch.channelNumber item.data)
          ∈ acts)
    ∧ (¬ch.state = .CH_CLOSED → data.getD 2 0 = CHANNEL_RESPONSE →
        data.getD 4 0 = 1 →
        ¬data.getD 5 0 = EVENT_RX_SEARCH_TIMEOUT →
        ¬data.getD 5 0 = EVENT_CHANNEL_CLOSED →
        ¬data.getD 5 0 = EVENT_RX_FAIL_GO_TO_SEARCH →
        ¬data.getD 5 0 = RESPONSE_NO_ERROR →
        ch.ackDataRequestOutstanding = true →
        ch.ackDataQueue = item :: rest →
        handleMessage ch data = .ok (ch', acts) →
        ch'.ackDataQueue = rest ∧ ch'.ackDataRequestOutstanding = false ∧
        acts = [.ackReply item.tag (data.getD 5 0)]) := by
  refine ⟨rfl, ?_, ?_, ?_, ?_⟩
  · exact fun hflag hh =>
      handleMessage_no_ack_write_outstanding ch ch' data acts hflag hh
  · exact fun hnb hh =>
      handleMessage_no_ack_write_of_not_broadcast ch ch' data acts hnb hh
  · exact fun hcl hb hflag hq hh =>
      handleMessage_broadcast_sends ch ch' data acts item rest hcl hb hflag hq hh
  · exact fun hcl h2 h4 he1 he7 he8 he0 hflag hq hh =>
      handleMessage_ack_reply ch ch' data acts item rest
        hcl h2 h4 he1 he7 he8 he0 hflag hq hh

theorem ack_transmission_cadence_witness :
    handleMessage
        { state := .CH_OPEN, channelId := mkChannelId 0x11 0x2211,
          channelNumber := 1, ackDataQueue := [⟨51, [51, 255]⟩],
          ackDataRequestOutstanding := true, idReqestOutstanding := false,
          messagesReceived := 9, messagesFailed := 0 }
        (makeMessage CHANNEL_RESPONSE [1, 1, 6])
      = .ok
        ({ state := .CH_OPEN, channelId := mkChannelId 0x11 0x2211,
           channelNumber := 1, ackDataQueue := [],
           ackDataRequestOutstanding := false, idReqestOutstanding := false,
           messagesReceived := 9, messagesFailed := 0 },
         [.ackReply 51 6]) ∧
    ([] : List AckDataItem) = [] ∧ (false : Bool) = false ∧
    ([ChannelAction.ackReply 51 6]
      = [.ackReply 51 ((makeMessage CHANNEL_RESPONSE [1, 1, 6]).getD 5 0)]) := by
  have hrun : handleMessage
      { state := .CH_OPEN, channelId := mkChannelId 0x11 0x2211,
        channelNumber := 1, ackDataQueue := [⟨51, [51, 255]⟩],
        ackDataRequestOutstanding := true, idReqestOutstanding := false,
        messagesReceived := 9, messagesFailed := 0 }
      (makeMessage CHANNEL_RESPONSE [1, 1, 6])
      = .ok
        ({ state := .CH_OPEN, channelId := mkChannelId 0x11 0x2211,
           channelNumber := 1, ackDataQueue := [],
           ackDataRequestOutstanding := false, idReqestOutstanding := false,
           messagesReceived := 9, messagesFailed := 0 },
         [.ackReply 51 6]) := by rfl
  have h := ack_transmission_cadence
    { state := .CH_OPEN, channelId := mkChannelId 0x11 0x2211,
      channelNumber := 1, ackDataQueue := [⟨51, [51, 255]⟩],
      ackDataRequestOutstanding := true, idReqestOutstanding := false,
      messagesReceived := 9, messagesFailed := 0 }
    { state := .CH_OPEN, channelId := mkChannelId 0x11 0x2211,
      channelNumber := 1, ackDataQueue := [],
      ackDataRequestOutstanding := false, idReqestOutstanding := false,
      messagesReceived := 9, messagesFailed := 0 }
    51 [51, 255] (makeMessage CHANNEL_RESPONSE [1, 1, 6])
    [.ackReply 51 6] ⟨51, [51, 255]⟩ []
  have hc := h.2.2.2.2 (by decide) (by decide) (by decide) (by decide)
    (by decide) (by decide) (by decide) (by decide) (by decide) hrun
  exact ⟨hrun, hc.1, hc.2.1, hc.2.2⟩

/-- C9. HRM broadcast decode and accessor: every BROADCAST_DATA
frame delivered to the HRM profile records the measurement time as the
little-endian u16 at frame offsets 8 and 9 (indexed from the frame
start), the heart-beat count from the following byte (offset 10) and
the instant heart rate from the byte after that (offset 11), together
with the current timestamp; `InstantHeartRate()` then returns the
recorded value while the timestamp is no older than 5000 ms and 0
otherwise. -/
theorem hrm_broadcast_decode (s : HrmState) (data : List Nat) (now t : Nat)
    (hb : data.getD 2 0 = BROADCAST_DATA) :
    (hrmOnMessageReceived s data now).measurementTime
        = data.getD 8 0 + 256 * data.getD 9 0
    ∧ (hrmOnMessageReceived s data now).heartBeats = data.getD 10 0
    ∧ (hrmOnMessageReceived s data now).instantHeartRate
        = (data.getD 11 0 : ℚ)
    ∧ (hrmOnMessageReceived s data now).instantHeartRateTimestamp
        = now % 4294967296
    ∧ (hrmOnMessageReceived s data now).lastMeasurementTime
        = s.measurementTime
    ∧ (u32sub t (now % 4294967296) ≤ STALE_TIMEOUT →
        hrmInstantHeartRate (hrmOnMessageReceived s data now) t
          = (data.getD 11 0 : ℚ))
    ∧ (STALE_TIMEOUT < u32sub t (now % 4294967296) →
        hrmInstantHeartRate (hrmOnMessageReceived s data now) t = 0) := by
  have hstep : hrmOnMessageReceived s data now =
      { lastMeasurementTime := s.measurementTime
        measurementTime := data.getD 8 0 + (data.getD 9 0 <<< 8)
        heartBeats := data.getD 10 0
        instantHeartRate := (data.getD 11 0 : ℚ)
        instantHeartRateTimestamp := now % 4294967296 } := by
    rw [hrmOnMessageReceived, if_neg (fun hne => hne hb)]
  rw [hstep]
  refine ⟨?_, rfl, rfl, rfl, rfl, ?_, ?_⟩
  · show data.getD 8 0 + data.getD 9 0 <<< 8 = data.getD 8 0 + 256 * data.getD 9 0
    rw [Nat.shiftLeft_eq]
    ring
  · intro h
    simp only [hrmInstantHeartRate]
    rw [if_neg (by omega)]
  · intro h
    simp only [hrmInstantHeartRate]
    rw [if_pos (by omega)]

theorem hrm_broadcast_decode_witness :
    (hrmOnMessageReceived hrmInit
        (makeMessage BROADCAST_DATA [0, 1, 2, 3, 4, 0x7A, 0x00, 0x10, 72, 0, 0])
        1000).measurementTime = 122
    ∧ (hrmOnMessageReceived hrmInit
        (makeMessage BROADCAST_DATA [0, 1, 2, 3, 4, 0x7A, 0x00, 0x10, 72, 0, 0])
        1000).heartBeats = 16
    ∧ hrmInstantHeartRate
        (hrmOnMessageReceived hrmInit
          (makeMessage BROADCAST_DATA [0, 1, 2, 3, 4, 0x7A, 0x00, 0x10, 72, 0, 0])
          1000) 1500 = (72 : ℚ)
    ∧ hrmInstantHeartRate
        (hrmOnMessageReceived hrmInit
          (makeMessage BROADCAST_DATA [0, 1, 2, 3, 4, 0x7A, 0x00, 0x10, 72, 0, 0])
          1000) 7000 = 0 := by
  have h := hrm_broadcast_decode hrmInit
    (makeMessage BROADCAST_DATA [0, 1, 2, 3, 4, 0x7A, 0x00, 0x10, 72, 0, 0])
    1000 1500 (by decide)
  have h2 := hrm_broadcast_decode hrmInit
    (makeMessage BROADCAST_DATA [0, 1, 2, 3, 4, 0x7A, 0x00, 0x10, 72, 0, 0])
    1000 7000 (by decide)
  refine ⟨?_, ?_, ?_, ?_⟩
  · rw [h.1]
    decide
  · rw [h.2.1]
    decide
  · rw [h.2.2.2.2.2.1 (by decide),
      show (makeMessage BROADCAST_DATA
          [0, 1, 2, 3, 4, 0x7A, 0x00, 0x10, 72, 0, 0]).getD 11 0 = 72
        from by decide]
    norm_num
  · exact h2.2.2.2.2.2.2 (by decide)

/-- C5 counterexample (to the claim as stated): immediately after
construction, `InstantPower()` returns 0 although the power timestamp
is fresh (current time − timestamp = 0 ≤ 5000 ms), so the accessors do
not return 0 *only* when stale. -/
theorem fec_staleness_counterexample :
    fecInstantPower (fecInit 0) 0 = 0
    ∧ fecInstantSpeed (fecInit 0) 0 = 0
    ∧ fecInstantCadence (fecInit 0) 0 = 0
    ∧ ¬(u32sub 0 (fecInit 0).instantPowerTimestamp > STALE_TIMEOUT) := by
  have hcond : ¬(u32sub 0 (fecInit 0).instantPowerTimestamp > STALE_TIMEOUT) := by
    decide
  refine ⟨?_, ?_, ?_, hcond⟩
  · rw [fecInstantPower, if_neg hcond]
    rfl
  · rw [fecInstantSpeed, if_neg hcond]
    rfl
  · rw [fecInstantCadence, if_neg hcond]
    rfl


/-- C5 (amended). FE-C staleness: `InstantPower()`,
`InstantSpeed()` and `InstantCadence()` all return 0 when current time
minus the power-page update timestamp (the single timestamp governing
all three accessors) exceeds 5000 ms, and otherwise return the last
recorded value (which may itself be 0). -/
theorem fec_staleness (s : FecState) (now : Nat) :
    (u32sub now s.instantPowerTimestamp > STALE_TIMEOUT →
      fecInstantPower s now = 0 ∧ fecInstantSpeed s now = 0 ∧
      fecInstantCadence s now = 0)
    ∧ (u32sub now s.instantPowerTimestamp ≤ STALE_TIMEOUT →
      fecInstantPower s now = s.instantPower ∧
      fecInstantSpeed s now = s.instantSpeed ∧
      fecInstantCadence s now = s.instantCadence) := by
  constructor
  · intro h
    exact ⟨by rw [fecInstantPower, if_pos h],
      by rw [fecInstantSpeed, if_pos h],
      by rw [fecInstantCadence, if_pos h]⟩
  · intro h
    have h' : ¬(u32sub now s.instantPowerTimestamp > STALE_TIMEOUT) := by omega
    exact ⟨by rw [fecInstantPower, if_neg h'],
      by rw [fecInstantSpeed, if_neg h'],
      by rw [fecInstantCadence, if_neg h']⟩

theorem fec_staleness_witness :
    fecInstantPower (fecInit 0) 6000 = 0
    ∧ fecInstantCadence (fecInit 0) 100 = (fecInit 0).instantCadence := by
  have h1 := (fec_staleness (fecInit 0) 6000).1 (by decide)
  have h2 := (fec_staleness (fecInit 0) 100).2 (by decide)
  exact ⟨h1.1, h2.2.2⟩

theorem toU16_lt (q : ℚ) : toU16 q < 65536 :=
  Nat.mod_lt _ (by norm_num)

theorem and_255_eq_mod (a : Nat) : a &&& 0xFF = a % 256 := by
  have := Nat.and_pow_two_sub_one_eq_mod a 8
  norm_num at this
  exact this

theorem trackResistancePayload_eq (slope rolling : ℚ) :
    trackResistancePayload slope rolling
      = [0x33, 0xFF, 0xFF, 0xFF, 0xFF,
         toU16 ((slope + 200) / 0.01) % 256,
         toU16 ((slope + 200) / 0.01) / 256,
         toU8 (rolling * 500000)] := by
  rw [trackResistancePayload]
  have hlo := and_255_eq_mod (toU16 ((slope + 200) / 0.01))
  have hhi : (toU16 ((slope + 200) / 0.01) >>> 8) &&& 0xFF
      = toU16 ((slope + 200) / 0.01) / 256 := by
    rw [Nat.shiftRight_eq_div_pow, and_255_eq_mod]
    have hlt := toU16_lt ((slope + 200) / 0.01)
    have h28 : (2 : Nat) ^ 8 = 256 := by norm_num
    rw [h28]
    omega
  rw [hlo, hhi]
  rfl

/-- C6 counterexample (to the claim as stated): the
rolling-resistance byte is not clamped to [0, 255].  For the stored
rolling resistance 0.004 (the only value the source ever assigns),
0.004 × 5e5 = 2000 and the emitted byte is 2000 mod 256 = 0xD0, not the
clamped 0xFF. -/
theorem track_resistance_no_clamp :
    ((0.004 : ℚ) * 500000 = 2000)
    ∧ (trackResistancePayload 2.5 0.004).getD 7 0 = 0xD0
    ∧ ¬(0xD0 : Nat) = 255 := by
  refine ⟨by norm_num, ?_, by decide⟩
  have h : (trackResistancePayload 2.5 0.004).getD 7 0
      = toU8 ((0.004 : ℚ) * 500000) := rfl
  rw [h, toU8]
  norm_num
  decide

/-- C6 (amended). Track-Resistance page: `set_slope` enqueues, with
tag 0x33, exactly
`[0x33, 0xFF, 0xFF, 0xFF, 0xFF, raw_slope_lo, raw_slope_hi, raw_rolling]`
with `raw_slope = u16((slope + 200.0) / 0.01)` and `raw_rolling` the u8
truncation of `rolling_resistance × 5e5` (the integer part reduced
mod 256 — not clamped); and the page is re-sent automatically when its
acknowledgement fails. -/
theorem track_resistance_page (s : FecState) (slope : ℚ) (event : Nat)
    (hev : ¬event = EVENT_TRANSFER_TX_COMPLETED) :
    fecSetSlope s slope
      = ({ s with slope := slope },
         [((0x33 : Int),
           [0x33, 0xFF, 0xFF, 0xFF, 0xFF,
            toU16 ((slope + 200) / 0.01) % 256,
            toU16 ((slope + 200) / 0.01) / 256,
            toU8 (s.rollingResistance * 500000)])])
    ∧ fecOnAcknowledgedDataReply s (0x33 : Int) event
        = (s, [((0x33 : Int),
            trackResistancePayload s.slope s.rollingResistance)]) := by
  constructor
  · rw [fecSetSlope, fecSendTrackResistanceDataPage]
    rw [show ({ s with slope := slope } : FecState).rollingResistance
        = s.rollingResistance from rfl]
    rw [show ({ s with slope := slope } : FecState).slope = slope from rfl]
    rw [trackResistancePayload_eq]
    norm_num [DP_TRACK_RESISTANCE]
  · rw [fecOnAcknowledgedDataReply, if_pos hev]
    rw [if_neg (by norm_num [DP_FE_CAPABILITIES]),
      if_neg (by norm_num [DP_USER_CONFIG]),
      if_pos (by norm_num [DP_TRACK_RESISTANCE])]
    rw [fecSendTrackResistanceDataPage]
    norm_num [DP_TRACK_RESISTANCE]

theorem track_resistance_page_witness :
    (fecSetSlope (fecInit 0) 2.5).2
      = [((0x33 : Int), [0x33, 0xFF, 0xFF, 0xFF, 0xFF, 0x1A, 0x4F, 0xD0])]
    ∧ (fecOnAcknowledgedDataReply (fecInit 0) (0x33 : Int) 6).2
      = [((0x33 : Int), trackResistancePayload 0 0.004)] := by
  have h := track_resistance_page (fecInit 0) 2.5 6 (by decide)
  have hs : toU16 ((2.5 + 200 : ℚ) / 0.01) = 20250 := by
    rw [toU16]
    norm_num
    decide
  have hr : toU8 ((fecInit 0).rollingResistance * 500000) = 0xD0 := by
    rw [show (fecInit 0).rollingResistance = (0.004 : ℚ) from rfl, toU8]
    norm_num
    decide
  constructor
  · rw [h.1]
    simp [hs, hr]
  · rw [h.2]
    rfl

/-- C7. User-Config byte 4: the source computes
`(ws1 & 0x3) | ((bw | 0x03) << 4)` where the claim (and the ANT+
profile document the source cites) requires
`(ws1 & 0x03) | ((bw & 0x0F) << 4)`.  At the default parameters
(75 kg / 10 kg / 0.668 m: bike-weight quanta `bw = 200`, wheel
residual `ws1 = 8 mm`) the source emits byte 4 = 0xB0 where the
intended packing gives 0x80. -/
theorem user_config_byte4_divergence :
    (∀ u b w : ℚ, (userConfigPayload u b w).getD 4 0
      = sourceUserConfigByte4
          ((((toU16 (w / 0.001) : Int) - (toU16 (w / 0.01) * 10 : Int)).emod
              65536).toNat)
          (toU16 (b / 0.05)))
    ∧ (userConfigPayload 75 10 0.668).getD 4 0 = 0xB0
    ∧ sourceUserConfigByte4 8 200 = 0xB0
    ∧ intendedUserConfigByte4 8 200 = 0x80
    ∧ ¬(0xB0 : Nat) = 0x80 := by
  have hws : toU16 ((0.668 : ℚ) / 0.01) = 66 := by
    rw [toU16]
    norm_num
    decide
  have hwsmm : toU16 ((0.668 : ℚ) / 0.001) = 668 := by
    rw [toU16]
    norm_num
    decide
  have hbw : toU16 ((10 : ℚ) / 0.05) = 200 := by
    rw [toU16]
    norm_num
    decide
  refine ⟨fun u b w => rfl, ?_, by decide, by decide, by decide⟩
  have h0 : (userConfigPayload 75 10 0.668).getD 4 0
      = sourceUserConfigByte4
          ((((toU16 ((0.668 : ℚ) / 0.001) : Int)
              - (toU16 ((0.668 : ℚ) / 0.01) * 10 : Int)).emod 65536).toNat)
          (toU16 ((10 : ℚ) / 0.05)) := rfl
  rw [h0, hws, hwsmm, hbw]
  decide

theorem processCapabilitiesPage_fields (s : FecState) (page : List Nat) :
    (processCapabilitiesPage s page).capabilitiesStatus
        = .CAPABILITIES_RECEIVED
    ∧ (processCapabilitiesPage s page).userWeight = s.userWeight
    ∧ (processCapabilitiesPage s page).bikeWeight = s.bikeWeight
    ∧ (processCapabilitiesPage s page).bikeWheelDiameter = s.bikeWheelDiameter
    ∧ (processCapabilitiesPage s page).updateUserConfig
        = s.updateUserConfig := by
  simp only [processCapabilitiesPage]
  split
  · exact ⟨rfl, rfl, rfl, rfl, rfl⟩
  · rename_i hcond
    simp only [not_or, ne_eq, not_not] at hcond
    exact ⟨hcond.1, rfl, rfl, rfl, rfl⟩

theorem fecDispatchPage_fields (s : FecState) (data : List Nat) (now : Nat) :
    (fecDispatchPage s data now).userWeight = s.userWeight
    ∧ (fecDispatchPage s data now).bikeWeight = s.bikeWeight
    ∧ (fecDispatchPage s data now).bikeWheelDiameter = s.bikeWheelDiameter
    ∧ (s.updateUserConfig = true →
        (fecDispatchPage s data now).updateUserConfig = true)
    ∧ (¬data.getD 4 0 = DP_FE_CAPABILITIES →
        (fecDispatchPage s data now).capabilitiesStatus
          = s.capabilitiesStatus) := by
  rw [fecDispatchPage]
  split
  · refine ⟨rfl, rfl, rfl, fun h => ?_, fun _ => rfl⟩
    exact h
  · split
    · refine ⟨rfl, rfl, rfl, fun h => ?_, fun _ => rfl⟩
      simp [processTrainerSpecificPage, h]
    · split
      · rename_i h1 h2 hcap
        obtain ⟨hc, hw1, hw2, hw3, hu⟩ :=
          processCapabilitiesPage_fields s (data.drop 4)
        exact ⟨hw1, hw2, hw3, fun h => by rw [hu, h],
          fun hp => absurd hcap hp⟩
      · exact ⟨rfl, rfl, rfl, fun h => h, fun _ => rfl⟩

theorem fec_request_capabilities (devno : Nat) (s : FecState)
    (data : List Nat) (now : Nat)
    (hdev : ¬devno = 0) (hb : data.getD 2 0 = BROADCAST_DATA)
    (hcap : s.capabilitiesStatus = .CAPABILITIES_UNKNOWN)
    (hp : ¬data.getD 4 0 = DP_FE_CAPABILITIES) :
    fecOnMessageReceived devno s data now
      = ({ fecDispatchPage s data now with
            capabilitiesStatus := .CAPABILITIES_REQUESTED },
         [((DP_FE_CAPABILITIES : Int),
           requestDataPagePayload DP_FE_CAPABILITIES 4)]) := by
  rw [fecOnMessageReceived, if_neg (fun hne => hne hb)]
  rw [fecControlRequest, if_neg hdev]
  rw [if_pos (by
    rw [(fecDispatchPage_fields s data now).2.2.2.2 hp]
    exact hcap)]

theorem fec_send_user_config_on_cap (devno : Nat) (s : FecState)
    (data : List Nat) (now : Nat)
    (hdev : ¬devno = 0) (hb : data.getD 2 0 = BROADCAST_DATA)
    (hcp : data.getD 4 0 = DP_FE_CAPABILITIES)
    (hu : s.updateUserConfig = true) :
    fecOnMessageReceived devno s data now
      = ({ fecDispatchPage s data now with updateUserConfig := false },
         [((DP_USER_CONFIG : Int),
           userConfigPayload s.userWeight s.bikeWeight
             s.bikeWheelDiameter)]) := by
  rw [fecOnMessageReceived, if_neg (fun hne => hne hb)]
  rw [fecControlRequest, if_neg hdev]
  have hcapR : (fecDispatchPage s data now).capabilitiesStatus
      = .CAPABILITIES_RECEIVED := by
    rw [fecDispatchPage, if_neg (by rw [hcp]; decide),
      if_neg (by rw [hcp]; decide), if_pos hcp]
    exact (processCapabilitiesPage_fields s (data.drop 4)).1
  rw [if_neg (by rw [hcapR]; decide)]
  obtain ⟨hw1, hw2, hw3, hupd, -⟩ := fecDispatchPage_fields s data now
  rw [if_pos (hupd hu)]
  rw [fecSendUserConfigPage]
  simp [hw1, hw2, hw3]

/-- C10. A freshly constructed FE-C profile has the user-config
send flag armed with the default parameters (user weight 75 kg, bike
weight 10 kg, wheel diameter 0.668 m); so in a run where the device
number is non-zero, the first broadcast triggers the capabilities
request, and the broadcast delivering the capabilities page makes the
profile enqueue a User-Config page carrying those defaults — even
though `SetUserParams` was never called. -/
theorem fec_default_user_config (devno t0 now1 now2 : Nat)
    (bframe cframe : List Nat)
    (hdev : ¬devno = 0)
    (hb : bframe.getD 2 0 = BROADCAST_DATA)
    (hbp : ¬bframe.getD 4 0 = DP_FE_CAPABILITIES)
    (hc : cframe.getD 2 0 = BROADCAST_DATA)
    (hcp : cframe.getD 4 0 = DP_FE_CAPABILITIES) :
    (fecInit t0).updateUserConfig = true
    ∧ (fecInit t0).userWeight = 75
    ∧ (fecInit t0).bikeWeight = 10
    ∧ (fecInit t0).bikeWheelDiameter = 0.668
    ∧ (fecOnMessageReceived devno (fecInit t0) bframe now1).2
        = [((DP_FE_CAPABILITIES : Int),
            requestDataPagePayload DP_FE_CAPABILITIES 4)]
    ∧ (fecOnMessageReceived devno
          (fecOnMessageReceived devno (fecInit t0) bframe now1).1
          cframe now2).2
        = [((DP_USER_CONFIG : Int), userConfigPayload 75 10 0.668)] := by
  have h1 := fec_request_capabilities devno (fecInit t0) bframe now1
    hdev hb rfl hbp
  obtain ⟨hw1, hw2, hw3, hupd, -⟩ :=
    fecDispatchPage_fields (fecInit t0) bframe now1
  have hs1 : (fecOnMessageReceived devno (fecInit t0) bframe now1).1
      = { fecDispatchPage (fecInit t0) bframe now1 with
          capabilitiesStatus := .CAPABILITIES_REQUESTED } := by
    rw [h1]
  have h2 := fec_send_user_config_on_cap devno
    ({ fecDispatchPage (fecInit t0) bframe now1 with
        capabilitiesStatus := .CAPABILITIES_REQUESTED })
    cframe now2 hdev hc hcp (by simpa using hupd rfl)
  have hsu : ({ fecDispatchPage (fecInit t0) bframe now1 with
      capabilitiesStatus := CapabilitiesStatus.CAPABILITIES_REQUESTED }
        : FecState).userWeight = (75 : ℚ) := by
    have hproj : ({ fecDispatchPage (fecInit t0) bframe now1 with
        capabilitiesStatus := CapabilitiesStatus.CAPABILITIES_REQUESTED }
          : FecState).userWeight
        = (fecDispatchPage (fecInit t0) bframe now1).userWeight := rfl
    rw [hproj, hw1]
    rfl
  have hsb : ({ fecDispatchPage (fecInit t0) bframe now1 with
      capabilitiesStatus := CapabilitiesStatus.CAPABILITIES_REQUESTED }
        : FecState).bikeWeight = (10 : ℚ) := by
    have hproj : ({ fecDispatchPage (fecInit t0) bframe now1 with
        capabilitiesStatus := CapabilitiesStatus.CAPABILITIES_REQUESTED }
          : FecState).bikeWeight
        = (fecDispatchPage (fecInit t0) bframe now1).bikeWeight := rfl
    rw [hproj, hw2]
    rfl
  have hsw : ({ fecDispatchPage (fecInit t0) bframe now1 with
      capabilitiesStatus := CapabilitiesStatus.CAPABILITIES_REQUESTED }
        : FecState).bikeWheelDiameter = (0.668 : ℚ) := by
    have hproj : ({ fecDispatchPage (fecInit t0) bframe now1 with
        capabilitiesStatus := CapabilitiesStatus.CAPABILITIES_REQUESTED }
          : FecState).bikeWheelDiameter
        = (fecDispatchPage (fecInit t0) bframe now1).bikeWheelDiameter := rfl
    rw [hproj, hw3]
    rfl
  refine ⟨rfl, rfl, rfl, rfl, by rw [h1], ?_⟩
  rw [hs1]
  simp only [h2]
  rw [hsu, hsb, hsw]

theorem fec_default_user_config_witness :
    (fecOnMessageReceived 0x2211 (fecInit 0)
        (makeMessage BROADCAST_DATA [0, 0x10, 25, 0, 0, 0, 0, 0, 0]) 5).2
      = [((DP_FE_CAPABILITIES : Int),
          requestDataPagePayload DP_FE_CAPABILITIES 4)]
    ∧ (fecOnMessageReceived 0x2211
          (fecOnMessageReceived 0x2211 (fecInit 0)
            (makeMessage BROADCAST_DATA [0, 0x10, 25, 0, 0, 0, 0, 0, 0]) 5).1
          (makeMessage BROADCAST_DATA [0, 0x36, 0, 0, 0, 0, 200, 0, 7]) 9).2
      = [((DP_USER_CONFIG : Int), userConfigPayload 75 10 0.668)] := by
  have h := fec_default_user_config 0x2211 0 5 9
    (makeMessage BROADCAST_DATA [0, 0x10, 25, 0, 0, 0, 0, 0, 0])
    (makeMessage BROADCAST_DATA [0, 0x36, 0, 0, 0, 0, 200, 0, 7])
    (by decide) (by decide) (by decide) (by decide) (by decide)
  exact ⟨h.2.2.2.2.1, h.2.2.2.2.2⟩

end TrainerControl
